import Mathlib

/-!
Verification of the Lunaris installer's installation orchestrator.

This file gives a shallow embedding, in Lean, of the orchestrator code of
the Lunaris installer (Go): the bounded message queue
(`pkg/tui/messages/queue.go`), the output classifier
(`pkg/tui/message_handlers.go`), the AUR helper controller and package
batch installer (`pkg/aur/helper.go`), and the installation phase state
machine of the TUI (`pkg/tui/commands.go`, `pkg/tui/update.go`,
`pkg/tui/model.go`).  External effects (subprocess spawns, kills, file
copies) are recorded in explicit effect lists; nondeterministic
environment behaviour (subprocess outcomes, filesystem answers) is
supplied through oracle parameters.  Wall-clock fields of messages
(`Timestamp`, `ID`) are not modelled: no property depends on them.
-/

namespace Lunaris

/-! ## String utilities

Go's `strings.Contains` is modelled over character lists: `hasInfix pat l`
is true iff `pat` occurs contiguously inside `l` (an empty pattern always
matches, as it does for `strings.Contains`). -/

/-- Model of Go `strings.Contains` restricted to a pattern given as a
character list: true iff the pattern occurs contiguously in the text. -/
def hasInfix (pat : List Char) : List Char → Bool
  | [] => pat.isEmpty
  | c :: t => pat.isPrefixOf (c :: t) || hasInfix pat t

/-- `strContains s pat`: Go `strings.Contains(s, pat)`. -/
def strContains (s pat : String) : Bool :=
  hasInfix pat.toList s.toList

/-- Whitespace predicate used by Go's `strings.TrimSpace` (ASCII part). -/
def isSpaceChar (c : Char) : Bool :=
  c = ' ' || c = '\t' || c = '\n' || c = '\r'

/-- Model of Go `strings.TrimSpace` on character lists. -/
def goTrim (l : List Char) : List Char :=
  ((l.dropWhile isSpaceChar).reverse.dropWhile isSpaceChar).reverse

/-- Model of Go `strings.ToLower` on character lists (ASCII letters). -/
def goToLower (l : List Char) : List Char :=
  l.map Char.toLower

/-! ## Bounded message queue (`pkg/tui/messages/queue.go`, `part_008`) -/

/-- `MessageType` from the `messages` package. -/
inductive MessageType where
  | info
  | success
  | warning
  | error
  | debug
deriving DecidableEq, Repr

/-- `Message` from the `messages` package (`Timestamp` and `ID`, which
only record wall-clock creation time, are not modelled). -/
structure Message where
  type : MessageType
  content : String
  source : String
deriving DecidableEq, Repr

/-- `NewInfoMessage` from the `messages` package. -/
def NewInfoMessage (content source : String) : Message :=
  ⟨.info, content, source⟩

/-- `NewSuccessMessage` from the `messages` package. -/
def NewSuccessMessage (content source : String) : Message :=
  ⟨.success, content, source⟩

/-- `NewWarningMessage` from the `messages` package. -/
def NewWarningMessage (content source : String) : Message :=
  ⟨.warning, content, source⟩

/-- `NewErrorMessage` from the `messages` package. -/
def NewErrorMessage (content source : String) : Message :=
  ⟨.error, content, source⟩

/-- `NewDebugMessage` from the `messages` package. -/
def NewDebugMessage (content source : String) : Message :=
  ⟨.debug, content, source⟩

/-- The synthetic truncation marker inserted by `Queue.Add`. -/
def truncationMarker : Message :=
  NewInfoMessage "... (messages truncated) ..." "system"

namespace Queue

/-- `Queue.Add` from `pkg/tui/messages/queue.go`: append the message,
then, if the queue exceeds `maxSize`, keep the first quarter, insert the
truncation marker, and keep the last `maxSize - maxSize/4 - 1` messages. -/
def add (maxSize : Nat) (msgs : List Message) (msg : Message) : List Message :=
  if maxSize < (msgs ++ [msg]).length then
    (msgs ++ [msg]).take (maxSize / 4) ++ [truncationMarker] ++
      (msgs ++ [msg]).drop ((msgs ++ [msg]).length - (maxSize - maxSize / 4 - 1))
  else
    msgs ++ [msg]

/-- Run a sequence of `Queue.Add` calls starting from the empty queue
(`NewQueue` starts with an empty slice). -/
def runAdds (maxSize : Nat) (ls : List Message) : List Message :=
  ls.foldl (add maxSize) []

end Queue

/-! ## Output classifier (`pkg/tui/message_handlers.go`) -/

/-- The content-based message classification of `Model.AddMessage`: the
content is trimmed, lowercased, and matched against fixed token lists;
the error branch (error/failed/conflict) is checked first, then
warning/caution, then success/complete/installed, then debug. -/
def addMessageType (content : String) : MessageType :=
  let lc : List Char := goToLower (goTrim content.toList)
  if hasInfix "error".toList lc || hasInfix "failed".toList lc ||
      hasInfix "conflict".toList lc then .error
  else if hasInfix "warning".toList lc || hasInfix "caution".toList lc then .warning
  else if hasInfix "success".toList lc || hasInfix "complete".toList lc ||
      hasInfix "installed".toList lc then .success
  else if hasInfix "debug".toList lc then .debug
  else .info

/-- Per-line conflict detection used by `Helper.InstallPackages` (the
check feeding the conflict channel) and by `installNextPackage` on the
returned error text: Go `strings.Contains(line, "conflict")`. -/
def detectsConflictLine (line : String) : Bool :=
  strContains line "conflict"

/-! ## AUR helper controller and package batch installer
(`pkg/aur/helper.go`, Lunaris variant in `src/unnamed/part_006`) -/

/-- External effects performed by the aur package, recorded in order. -/
inductive Effect where
  | clearPM
  | pkill (name : String)
  | sleepMs (ms : Nat)
  | createTempDir
  | removeTempDir
  | spawn (argv : List String)
  | writeStdin (secret : String)
  | kill (pid : Nat)
deriving DecidableEq, Repr

/-- One external process: its PID and the PIDs in its process group
(the PID itself is a member). -/
structure Proc where
  pid : Nat
  groupPids : List Nat
deriving DecidableEq, Repr

/-- The package-level mutable state of the aur package: whether the
helper executable is on the search path (`exec.LookPath`), and the
global active-package-manager slot (`currentCmd`, `stdinPipe`). -/
structure AurWorld where
  helperOnPath : Bool
  currentCmd : Option Nat
  stdinPipe : Option Nat
deriving DecidableEq, Repr

/-- The event that wins the `select` at the end of
`Helper.InstallPackages`: natural exit (with optional error), a conflict
line observed on the conflict channel, or the 30-minute timer. -/
inductive BatchEvent where
  | exited (err : Option String)
  | conflictObserved (line : String)
  | timedOut
deriving DecidableEq, Repr

/-- The event that wins the `select` at the end of the build step of
`Helper.Install` (no conflict channel there). -/
inductive BuildEvent where
  | exited (err : Option String)
  | timedOut
deriving DecidableEq, Repr

/-- Go `fmt.Sprintf("%v", xs)` for a string slice. -/
def goFmtStrSlice (xs : List String) : String :=
  "[" ++ String.intercalate " " xs ++ "]"

/-- "Worth keeping" filter for clone output lines in `Helper.Install`. -/
def keepCloneLine (line : String) : Bool :=
  strContains line "error" || strContains line "warning" ||
    strContains line "fatal" || strContains line "Cloning"

/-- "Worth keeping" filter for build output lines in `Helper.Install`. -/
def keepBuildLine (line : String) : Bool :=
  strContains line "error" || strContains line "warning" ||
    strContains line "installing" || strContains line "making" ||
    strContains line "building" || strContains line "conflict"

/-- The in-loop truncation of the build message buffer in
`Helper.Install`: above 50 entries, keep the first 25, a marker, and the
last 24. -/
def truncBuildMessages (msgs : List String) : List String :=
  if 50 < msgs.length then
    msgs.take 25 ++ ["... (output truncated) ..."] ++ msgs.drop (msgs.length - 24)
  else
    msgs

/-- Processing of one build output line in `Helper.Install`: skip empty
lines, keep "important" ones, truncate the buffer when it grows. -/
def appendBuildLine (msgs : List String) (line : String) : List String :=
  if line = "" then msgs
  else if keepBuildLine line then truncBuildMessages (msgs ++ [line])
  else msgs

/-- Oracle for the environment interactions of `Helper.Install`
(filesystem and subprocess errors, captured output, completion event). -/
structure InstallEnv where
  tempDirErr : Option String
  getwdErr : Option String
  chdirTempErr : Option String
  cloneStartErr : Option String
  cloneOutput : List String
  cloneWaitErr : Option String
  chdirHelperErr : Option String
  stdoutPipeErr : Option String
  stderrPipeErr : Option String
  stdinPipeErr : Option String
  makepkgStartErr : Option String
  buildPid : Nat
  buildOutput : List String
  buildEvent : BuildEvent

namespace Helper

/-- `Helper.Install` from the Lunaris `pkg/aur/helper.go`
(`src/unnamed/part_006`): if the helper is already on the search path it
returns a single informational message at once; otherwise it creates a
temporary directory, clones the helper's AUR recipe, and builds it with
`makepkg` under `ionice`/`nice`, filtering and bounding the captured
output, with a 30-minute deadline on the build. -/
def install (name sudoPassword : String) (env : InstallEnv) (w : AurWorld) :
    AurWorld × List String × Option String × List Effect :=
  if w.helperOnPath then
    (w, ["AUR helper already installed"], none, [])
  else
    let messages := ["Installing " ++ name ++ " AUR helper..."]
    match env.tempDirErr with
    | some e => (w, messages, some ("failed to create temporary directory: " ++ e), [])
    | none =>
    match env.getwdErr with
    | some e =>
        (w, messages, some ("failed to get current directory: " ++ e), [.createTempDir])
    | none =>
    match env.chdirTempErr with
    | some e =>
        (w, messages, some ("failed to change to temporary directory: " ++ e),
          [.createTempDir])
    | none =>
    let messages := messages ++ ["Cloning " ++ name ++ " repository..."]
    match env.cloneStartErr with
    | some e => (w, messages, some ("failed to start git clone: " ++ e), [.createTempDir])
    | none =>
    let cloneArgv := ["git", "clone", "--depth=1",
      "https://aur.archlinux.org/" ++ name ++ ".git"]
    let effs := [Effect.createTempDir, Effect.spawn cloneArgv]
    let messages := messages ++
      env.cloneOutput.filter (fun l => l ≠ "" && keepCloneLine l)
    match env.cloneWaitErr with
    | some e => (w, messages, some ("failed to clone repository: " ++ e), effs)
    | none =>
    let messages := messages ++ ["Repository cloned successfully"]
    match env.chdirHelperErr with
    | some e =>
        (w, messages, some ("failed to change to AUR helper directory: " ++ e), effs)
    | none =>
    let messages := messages ++ ["Building and installing " ++ name ++ "..."]
    match env.stdoutPipeErr with
    | some e => (w, messages, some ("failed to create stdout pipe: " ++ e), effs)
    | none =>
    match env.stderrPipeErr with
    | some e => (w, messages, some ("failed to create stderr pipe: " ++ e), effs)
    | none =>
    match env.stdinPipeErr with
    | some e => (w, messages, some ("failed to create stdin pipe: " ++ e), effs)
    | none =>
    match env.makepkgStartErr with
    | some e => (w, messages, some ("failed to start makepkg: " ++ e), effs)
    | none =>
    let makepkgArgv :=
      (if sudoPassword ≠ "" then
        ["ionice", "-c", "3", "nice", "-n", "19", "sudo", "-S",
          "makepkg", "-si", "--noconfirm", "--noprogressbar"]
      else
        ["ionice", "-c", "3", "nice", "-n", "19",
          "makepkg", "-si", "--noconfirm", "--noprogressbar"])
    let effs := effs ++ [Effect.spawn makepkgArgv]
    let effs := effs ++
      (if sudoPassword ≠ "" then [Effect.writeStdin sudoPassword] else [])
    let messages := env.buildOutput.foldl appendBuildLine messages
    match env.buildEvent with
    | .exited none =>
        ({ w with helperOnPath := true },
          messages ++ [name ++ " installed successfully"], none,
          effs ++ [.removeTempDir])
    | .exited (some e) =>
        (w, messages ++ ["Error: " ++ e],
          some ("failed to build and install package: " ++ e),
          effs ++ [.removeTempDir])
    | .timedOut =>
        (w, messages ++ ["Command timed out after 30 minutes"],
          some "command timed out after 30 minutes",
          effs ++ [.kill env.buildPid, .removeTempDir])

end Helper

/-- "Worth keeping" filter for package-install output lines in
`Helper.InstallPackages`. -/
def keepPkgLine (line : String) : Bool :=
  strContains line "error" || strContains line "warning" ||
    strContains line "installing" || strContains line "conflict"

/-- Processing of one output line in `Helper.InstallPackages`: skip
empty lines, keep "important" ones while counting them, and, every tenth
kept message past 50 while the buffer holds more than 40, keep the first
20, a marker, and the last 20. -/
def appendPkgLine (st : List String × Nat) (line : String) : List String × Nat :=
  if line = "" then st
  else if keepPkgLine line then
    let msgs := st.1 ++ [line]
    let count := st.2 + 1
    if 50 < count ∧ count % 10 = 0 ∧ 40 < msgs.length then
      (msgs.take 20 ++ ["... (output truncated) ..."] ++
        msgs.drop (msgs.length - 20), count)
    else
      (msgs, count)
  else
    st

/-- The first non-empty conflict-bearing output line: the value held in
the capacity-one conflict channel of `Helper.InstallPackages`. -/
def firstConflict (lines : List String) : Option String :=
  lines.find? (fun l => l ≠ "" && detectsConflictLine l)

/-- Oracle for the environment interactions of
`Helper.InstallPackages`. -/
structure PkgInstallEnv where
  stdinPipeErr : Option String
  stdoutPipeErr : Option String
  stderrPipeErr : Option String
  startErr : Option String
  proc : Proc
  outputLines : List String
  event : BatchEvent

namespace Helper

/-- `Helper.InstallPackages` from the Lunaris `pkg/aur/helper.go`
(`src/unnamed/part_006`): no-op on an empty package list; otherwise
clears the global slot, force-kills stale helper/pacman processes,
settles 500 ms, spawns the helper (under sudo when a password is set),
records the new process in the global slot, feeds the password, filters
and bounds the output while watching for conflict lines, and races
completion against the conflict channel and a 30-minute deadline. -/
def installPackages (command sudoPassword : String) (packages : List String)
    (env : PkgInstallEnv) (w : AurWorld) :
    AurWorld × List String × Option String × List Effect :=
  if packages.isEmpty then
    (w, ["No packages to install"], none, [])
  else
    let messages := ["Installing packages: " ++ goFmtStrSlice packages]
    let w := { w with currentCmd := none, stdinPipe := none }
    let effs := [Effect.clearPM, Effect.pkill command, Effect.pkill "pacman",
      Effect.sleepMs 500]
    let args := ["-S", "--needed", "--noconfirm", "--noprogressbar"] ++ packages
    let argv :=
      (if sudoPassword ≠ "" then
        ["ionice", "-c", "3", "nice", "-n", "19", "sudo", "-S", command] ++ args
      else
        ["ionice", "-c", "3", "nice", "-n", "19", command] ++ args)
    let messages := messages ++
      (if sudoPassword ≠ "" then ["Using sudo with password"]
       else ["No password provided"])
    match env.stdinPipeErr with
    | some e => (w, messages, some ("failed to create stdin pipe: " ++ e), effs)
    | none =>
    match env.stdoutPipeErr with
    | some e => (w, messages, some ("failed to create stdout pipe: " ++ e), effs)
    | none =>
    match env.stderrPipeErr with
    | some e => (w, messages, some ("failed to create stderr pipe: " ++ e), effs)
    | none =>
    match env.startErr with
    | some e => (w, messages, some ("failed to start command: " ++ e), effs)
    | none =>
    let effs := effs ++ [Effect.spawn argv]
    let w := { w with currentCmd := some env.proc.pid, stdinPipe := some env.proc.pid }
    let effs := effs ++
      (if sudoPassword ≠ "" then [Effect.writeStdin sudoPassword] else [])
    let messages := messages ++
      (if sudoPassword ≠ "" then ["Sent sudo password to command"] else [])
    let messages := (env.outputLines.foldl appendPkgLine (messages, 2)).1
    match env.event with
    | .exited none =>
        (w, messages ++ ["Packages installed successfully"], none, effs)
    | .exited (some e) =>
        match firstConflict env.outputLines with
        | some cmsg =>
            (w, messages ++ ["Conflict detected: " ++ cmsg],
              some ("package conflict detected: " ++ cmsg), effs)
        | none =>
            (w, messages ++ ["Command failed: " ++ e],
              some ("command failed: " ++ e), effs)
    | .conflictObserved cmsg =>
        (w, messages ++ ["Conflict detected: " ++ cmsg],
          some ("package conflict detected: " ++ cmsg),
          effs ++ [.kill env.proc.pid])
    | .timedOut =>
        (w, messages ++ ["Command timed out after 30 minutes"],
          some "command timed out after 30 minutes",
          effs ++ [.kill env.proc.pid])

end Helper

/-- Modelled from the spec: "On deadline, the process and its full
process group are terminated."  Full-process-group termination means a
kill effect was issued for every PID in the process's group.  The code
(`cmd.Process.Kill()`) issues a kill for the single process PID only, so
this predicate is the refinement target the claim asserts, not a
definition taken from the source. -/
def processGroupTerminated (p : Proc) (effs : List Effect) : Prop :=
  ∀ q ∈ p.groupPids, Effect.kill q ∈ effs

/-! ## TUI effects

The TUI layer performs its own external actions (git clone, directory
copies, chmod); they are recorded in an instrumentation log carried by
the model (`Model.effects`).  The log is not a Go struct field: it
records, in order, the external commands the modelled functions run. -/

/-- External actions performed by the TUI layer. -/
inductive TuiEffect where
  | spawn (argv : List String)
  | copyDir (src tgt : String)
  | chmod (dir : String)
  | runScript (path : String)
  | removeDir (dir : String)
deriving DecidableEq, Repr

/-! ## TUI messages (`pkg/tui/messages.go`) -/

/-- `Page` from `pkg/tui/model.go`. -/
inductive Page where
  | welcome
  | aurHelper
  | packageCategories
  | installation
  | complete
deriving DecidableEq, Repr

/-- `InstallProgressMsg` from `pkg/tui/messages.go`. -/
structure InstallProgressMsg where
  progress : Nat
  total : Nat
  currentStep : String
  error : Option String
  phase : String
  isComplete : Bool
  hasConflict : Bool
  conflict : String
  isDotfilesConfirmation : Bool
  isBackupConfirmation : Bool
deriving DecidableEq, Repr

/-- `NewInstallProgressMsg` from `pkg/tui/messages.go`. -/
def NewInstallProgressMsg (progress total : Nat) (currentStep phase : String)
    (error : Option String) : InstallProgressMsg :=
  ⟨progress, total, currentStep, error, phase, false, false, "", false, false⟩

/-- `NewCompleteMsg` from `pkg/tui/messages.go`. -/
def NewCompleteMsg : InstallProgressMsg :=
  ⟨0, 0, "", none, "", true, false, "", false, false⟩

/-- `NewConflictMsg` from `pkg/tui/messages.go`. -/
def NewConflictMsg (conflict : String) : InstallProgressMsg :=
  ⟨0, 0, "", none, "", false, true, conflict, false, false⟩

/-- `NewDotfilesConfirmationMsg` from `pkg/tui/messages.go`. -/
def NewDotfilesConfirmationMsg : InstallProgressMsg :=
  ⟨0, 0, "", none, "", false, false, "", true, false⟩

/-- `NewBackupConfirmationMsg` from `pkg/tui/messages.go`. -/
def NewBackupConfirmationMsg : InstallProgressMsg :=
  ⟨0, 0, "", none, "", false, false, "", false, true⟩

/-! ## TUI model (`pkg/tui/model.go`), restricted to the fields the
installation orchestrator reads or writes -/

/-- The orchestrator-relevant fields of `tui.Model`, plus the
`effects` instrumentation log. -/
structure Model where
  page : Page
  packagesToInstall : List String
  installProgress : Nat
  totalSteps : Nat
  currentStep : String
  installPhase : String
  errorMessage : String
  awaitingPassword : Bool
  aurHelperInstalled : Bool
  dotfilesConfirmation : Bool
  backupConfirmation : Bool
  hasConflict : Bool
  conflictMessage : String
  conflictOption : Nat
  conflictPackage : String
  skippedPackages : List String
  replaceAllPackages : Bool
  queueMessages : List Message
  systemMessages : List String
  effects : List TuiEffect
deriving DecidableEq, Repr

namespace Model

/-- Common body of the `AddInfoMessage`/`AddSuccessMessage`/... helpers:
add a typed message to the bounded queue (capacity 100, as set by
`NewModel`) and to the legacy `systemMessages` slice. -/
def addTyped (m : Model) (t : MessageType) (content source : String) : Model :=
  { m with
    queueMessages := Queue.add 100 m.queueMessages ⟨t, content, source⟩,
    systemMessages := m.systemMessages ++ [content] }

/-- `Model.AddMessage`: trim the content, classify it, and add it with
the detected type. -/
def addMessage (m : Model) (content source : String) : Model :=
  m.addTyped (addMessageType content) (String.mk (goTrim content.toList)) source

/-- A send on one of the TUI update channels: the consumer goroutine
runs `m.AddMessage(msg, source)` and sets `m.currentStep`. -/
def sendUpdate (m : Model) (msg source : String) : Model :=
  { m.addMessage msg source with currentStep := msg }

/-- Add a batch of subprocess messages via `AddMessage`, as the loop in
`installNextPackage` does. -/
def addMessages (m : Model) (msgs : List String) (source : String) : Model :=
  msgs.foldl (fun m c => m.addMessage c source) m

/-- The message-recording block at the top of `installNextPackage`:
when the helper returned messages, add each via `AddMessage` and set the
current step to the last one. -/
def recordPkgMessages (m : Model) (msgs : List String) : Model :=
  if msgs.isEmpty then m
  else
    { m.addMessages msgs "package-install" with
      currentStep := msgs.getLastD m.currentStep }

end Model

/-! ## Installation state machine (`pkg/tui/commands.go`, Lunaris
variant; `pkg/tui/update.go`) -/

/-- `startInstallation` from `pkg/tui/commands.go`: store the selected
packages, compute `totalSteps` (helper step + packages + dotfiles
confirmation + backup + clone + one per configuration directory), reset
progress, and suspend awaiting the sudo password.  The selected package
list and `config.ConfigDirs` are passed as parameters. -/
def startInstallation (selectedPackages configDirs : List String) (m : Model) :
    Model × InstallProgressMsg :=
  let m := { m with
    packagesToInstall := selectedPackages,
    totalSteps := 1 + selectedPackages.length + 1 + 1 + 1 + configDirs.length,
    installProgress := 0 }
  let progressMsg := NewInstallProgressMsg m.installProgress m.totalSteps
    "Starting installation..." "Preparation" none
  ({ m with awaitingPassword := true }, progressMsg)

/-- `installNextPackage` from `pkg/tui/commands.go`, written by
structural recursion on the package queue (the queue field is kept in
sync with the recursion argument exactly as the Go code pops it).
`outcome pkg` supplies the `(messages, err)` pair returned by
`m.aurHelper.InstallPackages([]string{pkg})`. -/
def installLoop (outcome : String → List String × Option String) :
    List String → Model → Model × InstallProgressMsg
  | [], m =>
      ({ m with installPhase := "dotfiles_confirmation" }, NewDotfilesConfirmationMsg)
  | pkg :: rest, m =>
      let m := { m with packagesToInstall := rest,
                        installProgress := m.installProgress + 1 }
      let progressMsg := NewInstallProgressMsg m.installProgress m.totalSteps
        ("Installing " ++ pkg ++ "...") "Package Installation" none
      let r := outcome pkg
      let m := m.recordPkgMessages r.1
      match r.2 with
      | some e =>
          if detectsConflictLine e then
            let m := { m with conflictPackage := pkg }
            if m.replaceAllPackages then
              let m := m.addTyped .info
                ("Automatically replacing conflicting package: " ++ pkg)
                "conflict-resolution"
              installLoop outcome rest m
            else
              ({ m with hasConflict := true, conflictOption := 0 }, NewConflictMsg e)
          else
            (m, { progressMsg with error := some e })
      | none =>
          if rest.isEmpty then
            ({ m with installPhase := "dotfiles_confirmation" },
              NewDotfilesConfirmationMsg)
          else
            installLoop outcome rest m

/-- Entry point of `installNextPackage`: run the loop on the model's
current queue. -/
def installNextPackage (outcome : String → List String × Option String)
    (m : Model) : Model × InstallProgressMsg :=
  installLoop outcome m.packagesToInstall m

/-- Oracle for the environment interactions of `installDotfiles`. -/
structure DotfilesEnv where
  homeDirErr : Option String
  hyprLunaExists : Bool
  removeErr : Option String
  stdoutPipeErr : Option String
  stderrPipeErr : Option String
  startErr : Option String
  cloneOutput : List String
  waitErr : Option String
  readDirEntries : Option (List String)
  dirInRepo : String → Bool
  mkdirErr : String → Option String
  copyErr : String → Option String
  hyprScriptsExist : Bool
  agsScriptsExist : Bool
  wallpaperScriptExists : Bool

/-- Oracle for the environment interactions of `backupConfigDirs`. -/
structure BackupEnv where
  homeDirErr : Option String
  mkdirBackupErr : Option String
  dirExists : String → Bool
  mkdirParentErr : String → Option String
  copyErr : String → Option String

/-- The event observed by `installAURHelper`'s select loop. -/
inductive AURHelperEvent where
  | errored (e : String)
  | message (s : String)
  | done
  | tickInstalled
  | tickNotInstalled
  | timedOut
deriving DecidableEq, Repr

/-- The fixed parameters and environment oracles of one session. -/
structure SessionEnv where
  homeDir : String
  configRepo : String
  configDirs : List String
  helperName : String
  aurEvent : AURHelperEvent
  dotfiles : DotfilesEnv
  backup : BackupEnv

/-- The per-directory copy loop of `installDotfiles` (the `for _,
configDir := range existingDirs` loop): each successful copy sends two
updates and increments progress; the first failing directory aborts with
an error. -/
def copyDirsLoop (env : SessionEnv) : List String →
    Model → InstallProgressMsg → Model × Option InstallProgressMsg
  | [], m, _ => (m, none)
  | d :: rest, m, curMsg =>
      let m := m.sendUpdate ("Copying " ++ d ++ "...") "dotfiles"
      let targetDir := env.homeDir ++ "/" ++ d
      match env.dotfiles.mkdirErr d with
      | some e =>
          (m, some { curMsg with
            error := some ("failed to create directory " ++ targetDir ++ ": " ++ e) })
      | none =>
      match env.dotfiles.copyErr d with
      | some e =>
          (m, some { curMsg with
            error := some ("failed to copy files to " ++ targetDir ++ ": " ++ e) })
      | none =>
          let sourceDir := env.homeDir ++ "/HyprLuna/" ++ d
          let m := { m with effects := m.effects ++ [TuiEffect.copyDir sourceDir targetDir] }
          let m := m.sendUpdate ("Successfully copied " ++ d) "dotfiles"
          let m := { m with installProgress := m.installProgress + 1 }
          let curMsg := NewInstallProgressMsg m.installProgress m.totalSteps
            ("Copied " ++ d) "Post-Installation" none
          copyDirsLoop env rest m curMsg

/-- `installDotfiles` from `pkg/tui/commands.go` (Lunaris variant):
remove any pre-existing `~/HyprLuna` checkout, clone the configuration
repository (shallow, single branch), fail if the checkout is empty,
copy each configuration directory present in the checkout into the home
directory, then mark scripts executable and finish. -/
def installDotfiles (env : SessionEnv) (m : Model) : Model × InstallProgressMsg :=
  let m := { m with installProgress := m.installProgress + 1 }
  let progressMsg := NewInstallProgressMsg m.installProgress m.totalSteps
    "Installing dotfiles..." "Post-Installation" none
  let m := m.sendUpdate "Starting dotfiles installation..." "dotfiles"
  match env.dotfiles.homeDirErr with
  | some e => (m, { progressMsg with error := some ("failed to get home directory: " ++ e) })
  | none =>
  let m := m.sendUpdate ("Cloning configuration repository from " ++ env.configRepo)
    "dotfiles"
  let hyprLunaDir := env.homeDir ++ "/HyprLuna"
  let m := if env.dotfiles.hyprLunaExists then
      m.sendUpdate ("Removing existing directory: " ++ hyprLunaDir) "dotfiles"
    else m
  match (if env.dotfiles.hyprLunaExists then env.dotfiles.removeErr else none) with
  | some e =>
      (m, { progressMsg with
        error := some ("failed to remove existing HyprLuna directory: " ++ e) })
  | none =>
  let m := if env.dotfiles.hyprLunaExists then
      { m with effects := m.effects ++ [TuiEffect.removeDir hyprLunaDir] }
    else m
  match env.dotfiles.stdoutPipeErr with
  | some e => (m, { progressMsg with error := some ("failed to create stdout pipe: " ++ e) })
  | none =>
  match env.dotfiles.stderrPipeErr with
  | some e => (m, { progressMsg with error := some ("failed to create stderr pipe: " ++ e) })
  | none =>
  let m := m.sendUpdate "Running git clone command..." "dotfiles"
  match env.dotfiles.startErr with
  | some e => (m, { progressMsg with error := some ("failed to start git clone: " ++ e) })
  | none =>
  let m := { m with effects := m.effects ++
    [TuiEffect.spawn ["git", "clone", "--depth=1", "--single-branch", env.configRepo,
      hyprLunaDir]] }
  let m := (env.dotfiles.cloneOutput.filter (· ≠ "")).foldl
    (fun m l => m.sendUpdate l "dotfiles") m
  match env.dotfiles.waitErr with
  | some e => (m, { progressMsg with error := some ("git clone failed: " ++ e) })
  | none =>
  match env.dotfiles.readDirEntries with
  | none =>
      (m, { progressMsg with error := some "repository cloned but appears to be empty" })
  | some entries =>
  if entries.isEmpty then
    (m, { progressMsg with error := some "repository cloned but appears to be empty" })
  else
  let m := m.sendUpdate "Repository cloned successfully" "dotfiles"
  let m := m.sendUpdate
    "Checking which configuration directories exist in the repository..." "dotfiles"
  let m := env.configDirs.foldl (fun m d =>
    if env.dotfiles.dirInRepo d then
      m.sendUpdate ("Found directory in repository: " ++ d) "dotfiles"
    else
      m.sendUpdate ("Directory not found in repository, will skip: " ++ d) "dotfiles") m
  let existingDirs := env.configDirs.filter env.dotfiles.dirInRepo
  match copyDirsLoop env existingDirs m progressMsg with
  | (m, some errMsg) => (m, errMsg)
  | (m, none) =>
  let m := m.sendUpdate "Making scripts executable..." "dotfiles"
  let m := if env.dotfiles.hyprScriptsExist then
      let m := { m with effects := m.effects ++
        [TuiEffect.chmod (env.homeDir ++ "/.config/hypr/scripts")] }
      m.sendUpdate "Made hypr scripts executable" "dotfiles"
    else m
  let m := if env.dotfiles.agsScriptsExist then
      let m := { m with effects := m.effects ++
        [TuiEffect.chmod (env.homeDir ++ "/.config/ags/scripts/hyprland")] }
      m.sendUpdate "Made ags scripts executable" "dotfiles"
    else m
  let m := if env.dotfiles.wallpaperScriptExists then
      let m := { m with effects := m.effects ++
        [TuiEffect.runScript (env.homeDir ++ "/.config/ags/scripts/color_generation/wallpapers.sh")] }
      m.sendUpdate "Generated wallpaper colors" "dotfiles"
    else m
  let m := m.sendUpdate "Dotfiles installation complete!" "dotfiles"
  (m, NewCompleteMsg)

/-- The per-directory loop of `backupConfigDirs` over `.config`,
`.local`, `.ags`: copy each existing directory into the backup
directory, aborting on the first error. -/
def backupLoop (env : SessionEnv) (backupDir : String) : List String →
    Model → InstallProgressMsg → Model × Option InstallProgressMsg
  | [], m, _ => (m, none)
  | d :: rest, m, curMsg =>
      if env.backup.dirExists d then
        let m := m.sendUpdate ("Backing up " ++ d ++ " to " ++ d) "backup"
        match env.backup.mkdirParentErr d with
        | some e =>
            (m, some { curMsg with
              error := some ("failed to create backup directory for " ++ d ++ ": " ++ e) })
        | none =>
        match env.backup.copyErr d with
        | some e =>
            (m, some { curMsg with
              error := some ("failed to backup " ++ d ++ " directory: " ++ e) })
        | none =>
            let m := { m with effects := m.effects ++
              [TuiEffect.copyDir (env.homeDir ++ "/" ++ d) (backupDir ++ "/" ++ d)] }
            let m := m.sendUpdate ("Successfully backed up " ++ d ++ " to " ++ d) "backup"
            backupLoop env backupDir rest m curMsg
      else
        backupLoop env backupDir rest m curMsg

/-- `backupConfigDirs` from `pkg/tui/commands.go` (Lunaris variant):
create `~/HyprLuna-User-Bak`, copy each of `.config`/`.local`/`.ags`
that exists into it, then proceed to `installDotfiles`. -/
def backupConfigDirs (env : SessionEnv) (m : Model) : Model × InstallProgressMsg :=
  let m := { m with installProgress := m.installProgress + 1 }
  let progressMsg := NewInstallProgressMsg m.installProgress m.totalSteps
    "Backing up configuration directories..." "Backup" none
  match env.backup.homeDirErr with
  | some e => (m, { progressMsg with error := some ("failed to get home directory: " ++ e) })
  | none =>
  let backupDir := env.homeDir ++ "/HyprLuna-User-Bak"
  let backupMsg := "Creating backup directory: " ++ backupDir
  let m := { m.addTyped .info backupMsg "backup" with currentStep := backupMsg }
  match env.backup.mkdirBackupErr with
  | some e => (m, { progressMsg with error := some ("failed to create backup directory: " ++ e) })
  | none =>
  let dirsToBackup := [".config", ".local", ".ags"]
  let m := dirsToBackup.foldl (fun m d =>
    if env.backup.dirExists d then
      m.sendUpdate ("Found directory to backup: " ++ d) "backup"
    else
      m.sendUpdate ("Directory does not exist, will skip: " ++ d) "backup") m
  match backupLoop env backupDir dirsToBackup m progressMsg with
  | (m, some errMsg) => (m, errMsg)
  | (m, none) =>
  let m := m.sendUpdate "Backup completed successfully" "backup"
  let m := { m with installPhase := "Post-Installation" }
  installDotfiles env m

/-- `installAURHelper` from `pkg/tui/commands.go` (Lunaris variant),
as a function of the first event its select loop observes. -/
def installAURHelper (env : SessionEnv) (m : Model) : Model × InstallProgressMsg :=
  let m := { m with installProgress := m.installProgress + 1 }
  let progressMsg := NewInstallProgressMsg m.installProgress m.totalSteps
    ("Installing AUR helper: " ++ env.helperName ++ "...") "AUR Helper Installation" none
  match env.aurEvent with
  | .errored e => (m, { progressMsg with error := some e })
  | .message s =>
      let m := { m.addMessage s "aur-helper" with currentStep := s }
      (m, NewInstallProgressMsg m.installProgress m.totalSteps s
        "AUR Helper Installation" none)
  | .done =>
      let m := { m with aurHelperInstalled := true }
      let m := m.addTyped .success (env.helperName ++ " installed successfully")
        "aur-helper"
      let m := { m with installPhase := "Package Installation" }
      (m, NewInstallProgressMsg m.installProgress m.totalSteps
        "Starting package installation..." "Package Installation" none)
  | .tickInstalled =>
      let m := { m with aurHelperInstalled := true }
      let m := m.addTyped .success (env.helperName ++ " installed successfully")
        "aur-helper"
      let m := { m with installPhase := "Package Installation" }
      (m, NewInstallProgressMsg m.installProgress m.totalSteps
        "Starting package installation..." "Package Installation" none)
  | .tickNotInstalled =>
      (m, NewInstallProgressMsg m.installProgress m.totalSteps m.currentStep
        "AUR Helper Installation" none)
  | .timedOut =>
      (m, { progressMsg with error := some "installation timed out after 30 minutes" })

/-- `continueInstallation` from `pkg/tui/commands.go` (Lunaris variant):
dispatch on pending conflict (with its Skip/Replace/Cancel switch), the
two confirmation phases, the helper-not-yet-installed case, and the
package queue.  Returns `none` where the Go code returns a `nil`
message. -/
def continueInstallation (outcome : String → List String × Option String)
    (env : SessionEnv) (m : Model) : Model × Option InstallProgressMsg :=
  if m.hasConflict ∧ m.conflictOption = 0 then
    let m := { m with packagesToInstall := m.packagesToInstall.tail }
    let r := installNextPackage outcome m
    (r.1, some r.2)
  else if m.hasConflict ∧ m.conflictOption = 1 then
    let r := installNextPackage outcome m
    (r.1, some r.2)
  else if m.hasConflict ∧ m.conflictOption = 2 then
    ({ m with page := .packageCategories }, none)
  else if m.installPhase = "dotfiles_confirmation" then
    if m.dotfilesConfirmation then
      ({ m with installPhase := "backup_confirmation" }, some NewBackupConfirmationMsg)
    else
      (m, some NewCompleteMsg)
  else if m.installPhase = "backup_confirmation" then
    if m.backupConfirmation then
      let r := backupConfigDirs env m
      (r.1, some r.2)
    else
      let r := installDotfiles env m
      (r.1, some r.2)
  else if ¬ m.aurHelperInstalled then
    let r := installAURHelper env m
    (r.1, some r.2)
  else if ¬ m.packagesToInstall.isEmpty then
    let r := installNextPackage outcome m
    (r.1, some r.2)
  else
    ({ m with installPhase := "dotfiles_confirmation" }, some NewDotfilesConfirmationMsg)

/-- Whether `handleInstallProgress` schedules a follow-up command. -/
inductive NextCmd where
  | noCmd
  | continueCmd
deriving DecidableEq, Repr

/-- `handleInstallProgress` from `pkg/tui/commands.go` (Lunaris
variant): completion, conflict, confirmation requests and errors all
stop the command chain; a plain progress update copies the fields and
continues the installation unless a password is awaited. -/
def handleInstallProgressFn (m : Model) (msg : InstallProgressMsg) : Model × NextCmd :=
  if msg.isComplete then
    ({ m with page := .complete }, .noCmd)
  else if msg.hasConflict then
    ({ m with hasConflict := true, conflictMessage := msg.conflict }, .noCmd)
  else if msg.isDotfilesConfirmation then
    ({ m with installPhase := "dotfiles_confirmation" }, .noCmd)
  else if msg.isBackupConfirmation then
    ({ m with installPhase := "backup_confirmation" }, .noCmd)
  else
    match msg.error with
    | some e => ({ m with errorMessage := e }, .noCmd)
    | none =>
        let m := { m with installProgress := msg.progress, totalSteps := msg.total,
                          currentStep := msg.currentStep, installPhase := msg.phase }
        if m.awaitingPassword then (m, .noCmd) else (m, .continueCmd)

/-- The state mutations of `handleConflictInput`'s Enter branch
(`pkg/tui/update.go`), up to but not including the final
`continueInstallation` call: clear the conflict flag, then record the
choice (Skip adds the conflicting package to the skipped set,
Replace-All sets the session-wide flag). -/
def applyConflictChoice (m : Model) : Model :=
  let m := { m with hasConflict := false }
  match m.conflictOption with
  | 0 =>
      if m.conflictPackage ≠ "" then
        { m with skippedPackages := m.skippedPackages ++ [m.conflictPackage] }
      else m
  | 1 => m
  | 2 => { m with replaceAllPackages := true }
  | 3 => m
  | _ => m

/-- The Enter branch of `handleConflictInput`: apply the choice, then
either navigate back to package selection (Cancel) or continue the
installation. -/
def handleConflictEnter (outcome : String → List String × Option String)
    (env : SessionEnv) (m : Model) : Model × Option InstallProgressMsg :=
  if m.conflictOption = 3 then
    ({ applyConflictChoice m with page := .packageCategories }, none)
  else
    continueInstallation outcome env (applyConflictChoice m)

/-- The interactive session driver: feed each message produced by the
installation loop back through `handleInstallProgress`; on a conflict
message, consume the next user choice, apply the Enter branch of
`handleConflictInput`, and continue; stop on any non-conflict message
(or when no choices remain, the machine being suspended). -/
def driveSession (outcome : String → List String × Option String)
    (env : SessionEnv) : List Nat → Model × InstallProgressMsg →
    Model × InstallProgressMsg
  | choices, (m, msg) =>
      if ¬ msg.hasConflict then (m, msg)
      else
        match choices with
        | [] => (m, msg)
        | c :: cs =>
            let m1 := (handleInstallProgressFn m msg).1
            let m2 := { m1 with conflictOption := c }
            match handleConflictEnter outcome env m2 with
            | (m3, some msg3) => driveSession outcome env cs (m3, msg3)
            | (m3, none) => (m3, msg)

/-- The initial model state, with the field values set by `NewModel`
(`pkg/tui/model.go`). -/
def initialModel : Model where
  page := .welcome
  packagesToInstall := []
  installProgress := 0
  totalSteps := 0
  currentStep := ""
  installPhase := ""
  errorMessage := ""
  awaitingPassword := false
  aurHelperInstalled := false
  dotfilesConfirmation := false
  backupConfirmation := false
  hasConflict := false
  conflictMessage := ""
  conflictOption := 0
  conflictPackage := ""
  skippedPackages := []
  replaceAllPackages := false
  queueMessages := []
  systemMessages := []
  effects := []

instance (p : Proc) (effs : List Effect) :
    Decidable (processGroupTerminated p effs) :=
  inferInstanceAs (Decidable (∀ q ∈ p.groupPids, Effect.kill q ∈ effs))


/-- Agreement on the orchestration fields the Replace-All claim
compares; message logs and conflict bookkeeping are allowed to differ. -/
def coreAgree (a b : Model) : Prop :=
  a.packagesToInstall = b.packagesToInstall ∧
  a.installProgress = b.installProgress ∧
  a.totalSteps = b.totalSteps ∧
  a.installPhase = b.installPhase ∧
  a.skippedPackages = b.skippedPackages ∧
  a.page = b.page ∧
  a.hasConflict = b.hasConflict

/-- Concrete package-install outcome for the Replace-All witness: every
package reports a conflict. -/
def c6Outcome : String → List String × Option String :=
  fun _ => ([], some "package conflict detected: w")

/-- Concrete session environment for the Replace-All witness. -/
def c6Env : SessionEnv where
  homeDir := "/home/u"
  configRepo := "repo"
  configDirs := [".config"]
  helperName := "yay"
  aurEvent := .done
  dotfiles := ⟨none, false, none, none, none, none, [], none, some [],
    fun _ => false, fun _ => none, fun _ => none, false, false, false⟩
  backup := ⟨none, none, fun _ => false, fun _ => none, fun _ => none⟩

/-- Session state with Replace-All already chosen, for the witness. -/
def c6ModelA : Model :=
  { initialModel with
    packagesToInstall := ["p1", "p2"]
    replaceAllPackages := true
    aurHelperInstalled := true
    installPhase := "Package Installation" }

/-- The same session state without Replace-All, for the witness. -/
def c6ModelB : Model :=
  { initialModel with
    packagesToInstall := ["p1", "p2"]
    aurHelperInstalled := true
    installPhase := "Package Installation" }

/-- Package-install outcome for the C6 counterexample: every issued
install logs one `issued <pkg>` output line; `p2` then fails with a
conflict error, every other package succeeds.  Because each issue of a
package to the package manager contributes exactly one `issued` line to
the legacy message log, that log counts the issues. -/
def cx6Outcome : String → List String × Option String :=
  fun pkg =>
    (["issued " ++ pkg], if pkg = "p2" then some "conflict: files clash" else none)

/-- Session state with Replace-All already chosen and queue
`[p1, p2]`, for the C6 counterexample. -/
def cx6Model : Model :=
  { initialModel with
    packagesToInstall := ["p1", "p2"]
    replaceAllPackages := true
    aurHelperInstalled := true
    installPhase := "Package Installation" }

/-! ## Queue lemmas -/

namespace Queue

theorem add_length_le (maxSize : Nat) (hC : 1 ≤ maxSize)
    (msgs : List Message) (msg : Message)
    (h : msgs.length ≤ maxSize) :
    (add maxSize msgs msg).length ≤ maxSize := by
  unfold add
  split
  next hlt =>
    have hq : maxSize / 4 < maxSize := Nat.div_lt_self (by omega) (by omega)
    simp only [List.length_append, List.length_take, List.length_cons,
      List.length_nil, List.length_drop] at hlt ⊢
    omega
  next hge =>
    simp only [List.length_append, List.length_cons, List.length_nil] at hge ⊢
    omega

theorem add_no_overflow (maxSize : Nat) (msgs : List Message) (msg : Message)
    (h : msgs.length < maxSize) :
    add maxSize msgs msg = msgs ++ [msg] := by
  have hcond : ¬ maxSize < (msgs ++ [msg]).length := by
    simp only [List.length_append, List.length_cons, List.length_nil]
    omega
  unfold add
  rw [if_neg hcond]

theorem add_overflow (maxSize : Nat) (msgs : List Message) (msg : Message)
    (h : msgs.length = maxSize) :
    add maxSize msgs msg =
      msgs.take (maxSize / 4) ++ [truncationMarker] ++
        (msgs ++ [msg]).drop (msgs.length + 1 - (maxSize - maxSize / 4 - 1)) := by
  have hcond : maxSize < (msgs ++ [msg]).length := by
    simp only [List.length_append, List.length_cons, List.length_nil]
    omega
  have hq : maxSize / 4 ≤ msgs.length := by
    have := Nat.div_le_self maxSize 4
    omega
  unfold add
  rw [if_pos hcond, List.take_append_of_le_length hq]
  simp only [List.length_append, List.length_cons, List.length_nil]

theorem runAdds_append (maxSize : Nat) (ls : List Message) (m : Message) :
    runAdds maxSize (ls ++ [m]) = add maxSize (runAdds maxSize ls) m := by
  unfold runAdds
  rw [List.foldl_append]
  rfl

theorem runAdds_length_le (maxSize : Nat) (hC : 1 ≤ maxSize)
    (ls : List Message) :
    (runAdds maxSize ls).length ≤ maxSize := by
  induction ls using List.reverseRecOn with
  | nil => simp [runAdds]
  | append_singleton l m ih =>
      rw [runAdds_append]
      exact add_length_le maxSize hC _ m ih

theorem runAdds_no_overflow (maxSize : Nat) (ls : List Message)
    (h : ls.length ≤ maxSize) :
    runAdds maxSize ls = ls := by
  induction ls using List.reverseRecOn with
  | nil => simp [runAdds]
  | append_singleton l m ih =>
      rw [runAdds_append]
      have hl : l.length < maxSize := by
        simp only [List.length_append, List.length_cons, List.length_nil] at h
        omega
      rw [ih (Nat.le_of_lt hl), add_no_overflow maxSize l m hl]

/-- Shifting the most-recent-`K` window across one append. -/
theorem drop_last_shift (l : List Message) (m : Message) (K : Nat)
    (hK : K ≤ l.length) :
    (l.drop (l.length - K) ++ [m]).drop 1 = (l ++ [m]).drop (l.length + 1 - K) := by
  rw [← List.drop_append_of_le_length (Nat.sub_le l.length K), List.drop_drop]
  congr 1
  omega

/-- One append onto a queue already in the steady overflow shape keeps
the prefix and slides the most-recent window forward by one. -/
theorem add_steady (C : Nat) (hC : 1 ≤ C) (P D : List Message) (m : Message)
    (hP : P.length = C / 4) (hD : D.length = C - C / 4 - 1) :
    add C (P ++ truncationMarker :: D) m =
      P ++ truncationMarker :: (D ++ [m]).drop 1 := by
  have hq4 : C / 4 < C := Nat.div_lt_self (by omega) (by omega)
  have harr : (P ++ truncationMarker :: D) ++ [m] =
      P ++ truncationMarker :: (D ++ [m]) := by
    simp
  have hlen : ((P ++ truncationMarker :: D) ++ [m]).length = C + 1 := by
    simp only [List.length_append, List.length_cons, List.length_nil, hP, hD]
    omega
  have hcond : C < ((P ++ truncationMarker :: D) ++ [m]).length := by
    rw [hlen]
    omega
  unfold add
  rw [if_pos hcond]
  rw [hlen, harr]
  have hidx : C + 1 - (C - C / 4 - 1) = C / 4 + 2 := by omega
  rw [hidx]
  have htake : (P ++ truncationMarker :: (D ++ [m])).take (C / 4) = P := by
    rw [List.take_append_of_le_length (by omega), ← hP, List.take_length]
  have hdrop : (P ++ truncationMarker :: (D ++ [m])).drop (C / 4 + 2) =
      (D ++ [m]).drop 1 := by
    rw [List.drop_append_eq_append_drop]
    have h1 : P.drop (C / 4 + 2) = [] := by
      rw [List.drop_eq_nil_iff]
      omega
    rw [h1, List.nil_append, hP]
    have h2 : C / 4 + 2 - (C / 4) = 2 := by omega
    rw [h2]
    rfl
  rw [htake, hdrop]
  simp

/-- Past the first overflow, the queue is exactly: the first `C/4`
messages ever appended, the truncation marker, then the most recent
`C - C/4 - 1` appended messages, in append order. -/
theorem runAdds_overflow_recent (C : Nat) (hC : 1 ≤ C) :
    ∀ ls : List Message, C < ls.length →
      runAdds C ls =
        ls.take (C / 4) ++ truncationMarker ::
          ls.drop (ls.length - (C - C / 4 - 1)) := by
  have hq4 : C / 4 < C := Nat.div_lt_self (by omega) (by omega)
  intro ls
  induction ls using List.reverseRecOn with
  | nil => intro h; simp at h
  | append_singleton l m ih =>
      intro h
      rw [runAdds_append]
      rcases Nat.lt_or_ge C l.length with hl | hl
      · -- the queue had already overflowed before this append
        rw [ih hl]
        have hP : (l.take (C / 4)).length = C / 4 := by
          simp only [List.length_take]
          omega
        have hD : (l.drop (l.length - (C - C / 4 - 1))).length = C - C / 4 - 1 := by
          simp only [List.length_drop]
          omega
        rw [add_steady C hC _ _ m hP hD]
        rw [drop_last_shift l m (C - C / 4 - 1) (by omega)]
        have htk : (l ++ [m]).take (C / 4) = l.take (C / 4) := by
          rw [List.take_append_of_le_length (by omega)]
        rw [htk]
        simp only [List.length_append, List.length_cons, List.length_nil]
      · -- first overflow happens at this append
        have hleq : l.length = C := by
          simp only [List.length_append, List.length_cons, List.length_nil] at h
          omega
        rw [runAdds_no_overflow C l (Nat.le_of_eq hleq)]
        rw [add_overflow C l m hleq]
        have htk : (l ++ [m]).take (C / 4) = l.take (C / 4) := by
          rw [List.take_append_of_le_length (by omega)]
        rw [htk, hleq]
        simp only [List.length_append, List.length_cons, List.length_nil, hleq,
          List.append_assoc, List.singleton_append]

end Queue

/-! ## Frame lemmas

`AddMessage` and the update-channel sends only touch the message log and
the current-step label; every orchestration-relevant field is unchanged.
These lemmas let the state-machine proofs pass over message recording. -/

theorem foldl_model_proj {α β : Type} (f : Model → α) (g : Model → β → Model)
    (hg : ∀ m b, f (g m b) = f m) :
    ∀ (l : List β) (m : Model), f (l.foldl g m) = f m := by
  intro l
  induction l with
  | nil => intro m; rfl
  | cons b t ih =>
      intro m
      rw [List.foldl_cons, ih, hg]

namespace Model

@[simp] theorem addMessages_packagesToInstall (m : Model) (msgs : List String)
    (src : String) : (m.addMessages msgs src).packagesToInstall = m.packagesToInstall :=
  foldl_model_proj packagesToInstall (fun m c => m.addMessage c src) (fun _ _ => rfl) msgs m

@[simp] theorem addMessages_installProgress (m : Model) (msgs : List String)
    (src : String) : (m.addMessages msgs src).installProgress = m.installProgress :=
  foldl_model_proj installProgress (fun m c => m.addMessage c src) (fun _ _ => rfl) msgs m

@[simp] theorem addMessages_totalSteps (m : Model) (msgs : List String)
    (src : String) : (m.addMessages msgs src).totalSteps = m.totalSteps :=
  foldl_model_proj totalSteps (fun m c => m.addMessage c src) (fun _ _ => rfl) msgs m

@[simp] theorem addMessages_installPhase (m : Model) (msgs : List String)
    (src : String) : (m.addMessages msgs src).installPhase = m.installPhase :=
  foldl_model_proj installPhase (fun m c => m.addMessage c src) (fun _ _ => rfl) msgs m

@[simp] theorem addMessages_hasConflict (m : Model) (msgs : List String)
    (src : String) : (m.addMessages msgs src).hasConflict = m.hasConflict :=
  foldl_model_proj hasConflict (fun m c => m.addMessage c src) (fun _ _ => rfl) msgs m

@[simp] theorem addMessages_conflictOption (m : Model) (msgs : List String)
    (src : String) : (m.addMessages msgs src).conflictOption = m.conflictOption :=
  foldl_model_proj conflictOption (fun m c => m.addMessage c src) (fun _ _ => rfl) msgs m

@[simp] theorem addMessages_conflictMessage (m : Model) (msgs : List String)
    (src : String) : (m.addMessages msgs src).conflictMessage = m.conflictMessage :=
  foldl_model_proj conflictMessage (fun m c => m.addMessage c src) (fun _ _ => rfl) msgs m

@[simp] theorem addMessages_conflictPackage (m : Model) (msgs : List String)
    (src : String) : (m.addMessages msgs src).conflictPackage = m.conflictPackage :=
  foldl_model_proj conflictPackage (fun m c => m.addMessage c src) (fun _ _ => rfl) msgs m

@[simp] theorem addMessages_skippedPackages (m : Model) (msgs : List String)
    (src : String) : (m.addMessages msgs src).skippedPackages = m.skippedPackages :=
  foldl_model_proj skippedPackages (fun m c => m.addMessage c src) (fun _ _ => rfl) msgs m

@[simp] theorem addMessages_replaceAllPackages (m : Model) (msgs : List String)
    (src : String) : (m.addMessages msgs src).replaceAllPackages = m.replaceAllPackages :=
  foldl_model_proj replaceAllPackages (fun m c => m.addMessage c src) (fun _ _ => rfl) msgs m

@[simp] theorem addMessages_page (m : Model) (msgs : List String)
    (src : String) : (m.addMessages msgs src).page = m.page :=
  foldl_model_proj page (fun m c => m.addMessage c src) (fun _ _ => rfl) msgs m

@[simp] theorem addMessages_aurHelperInstalled (m : Model) (msgs : List String)
    (src : String) : (m.addMessages msgs src).aurHelperInstalled = m.aurHelperInstalled :=
  foldl_model_proj aurHelperInstalled (fun m c => m.addMessage c src) (fun _ _ => rfl) msgs m

@[simp] theorem addMessages_awaitingPassword (m : Model) (msgs : List String)
    (src : String) : (m.addMessages msgs src).awaitingPassword = m.awaitingPassword :=
  foldl_model_proj awaitingPassword (fun m c => m.addMessage c src) (fun _ _ => rfl) msgs m

@[simp] theorem addMessages_dotfilesConfirmation (m : Model) (msgs : List String)
    (src : String) :
    (m.addMessages msgs src).dotfilesConfirmation = m.dotfilesConfirmation :=
  foldl_model_proj dotfilesConfirmation (fun m c => m.addMessage c src) (fun _ _ => rfl) msgs m

@[simp] theorem addMessages_backupConfirmation (m : Model) (msgs : List String)
    (src : String) :
    (m.addMessages msgs src).backupConfirmation = m.backupConfirmation :=
  foldl_model_proj backupConfirmation (fun m c => m.addMessage c src) (fun _ _ => rfl) msgs m

@[simp] theorem addMessages_errorMessage (m : Model) (msgs : List String)
    (src : String) : (m.addMessages msgs src).errorMessage = m.errorMessage :=
  foldl_model_proj errorMessage (fun m c => m.addMessage c src) (fun _ _ => rfl) msgs m

@[simp] theorem addMessages_effects (m : Model) (msgs : List String)
    (src : String) : (m.addMessages msgs src).effects = m.effects :=
  foldl_model_proj effects (fun m c => m.addMessage c src) (fun _ _ => rfl) msgs m

/-- `recordPkgMessages` leaves every orchestration field unchanged; only
the message log and the current-step label move. -/
theorem recordPkgMessages_proj {α : Type} (f : Model → α)
    (hTyped : ∀ (m : Model) (t : MessageType) (c s : String), f (m.addTyped t c s) = f m)
    (hStep : ∀ (m : Model) (c : String), f { m with currentStep := c } = f m)
    (m : Model) (msgs : List String) : f (m.recordPkgMessages msgs) = f m := by
  unfold recordPkgMessages
  split
  · rfl
  · rw [hStep]
    exact foldl_model_proj f (fun m c => m.addMessage c "package-install") (fun m c => hTyped _ _ _ _) msgs m

@[simp] theorem recordPkgMessages_packagesToInstall (m : Model) (msgs : List String) :
    (m.recordPkgMessages msgs).packagesToInstall = m.packagesToInstall :=
  recordPkgMessages_proj packagesToInstall (fun _ _ _ _ => rfl) (fun _ _ => rfl) m msgs

@[simp] theorem recordPkgMessages_installProgress (m : Model) (msgs : List String) :
    (m.recordPkgMessages msgs).installProgress = m.installProgress :=
  recordPkgMessages_proj installProgress (fun _ _ _ _ => rfl) (fun _ _ => rfl) m msgs

@[simp] theorem recordPkgMessages_totalSteps (m : Model) (msgs : List String) :
    (m.recordPkgMessages msgs).totalSteps = m.totalSteps :=
  recordPkgMessages_proj totalSteps (fun _ _ _ _ => rfl) (fun _ _ => rfl) m msgs

@[simp] theorem recordPkgMessages_installPhase (m : Model) (msgs : List String) :
    (m.recordPkgMessages msgs).installPhase = m.installPhase :=
  recordPkgMessages_proj installPhase (fun _ _ _ _ => rfl) (fun _ _ => rfl) m msgs

@[simp] theorem recordPkgMessages_hasConflict (m : Model) (msgs : List String) :
    (m.recordPkgMessages msgs).hasConflict = m.hasConflict :=
  recordPkgMessages_proj hasConflict (fun _ _ _ _ => rfl) (fun _ _ => rfl) m msgs

@[simp] theorem recordPkgMessages_conflictOption (m : Model) (msgs : List String) :
    (m.recordPkgMessages msgs).conflictOption = m.conflictOption :=
  recordPkgMessages_proj conflictOption (fun _ _ _ _ => rfl) (fun _ _ => rfl) m msgs

@[simp] theorem recordPkgMessages_conflictMessage (m : Model) (msgs : List String) :
    (m.recordPkgMessages msgs).conflictMessage = m.conflictMessage :=
  recordPkgMessages_proj conflictMessage (fun _ _ _ _ => rfl) (fun _ _ => rfl) m msgs

@[simp] theorem recordPkgMessages_conflictPackage (m : Model) (msgs : List String) :
    (m.recordPkgMessages msgs).conflictPackage = m.conflictPackage :=
  recordPkgMessages_proj conflictPackage (fun _ _ _ _ => rfl) (fun _ _ => rfl) m msgs

@[simp] theorem recordPkgMessages_skippedPackages (m : Model) (msgs : List String) :
    (m.recordPkgMessages msgs).skippedPackages = m.skippedPackages :=
  recordPkgMessages_proj skippedPackages (fun _ _ _ _ => rfl) (fun _ _ => rfl) m msgs

@[simp] theorem recordPkgMessages_replaceAllPackages (m : Model) (msgs : List String) :
    (m.recordPkgMessages msgs).replaceAllPackages = m.replaceAllPackages :=
  recordPkgMessages_proj replaceAllPackages (fun _ _ _ _ => rfl) (fun _ _ => rfl) m msgs

@[simp] theorem recordPkgMessages_page (m : Model) (msgs : List String) :
    (m.recordPkgMessages msgs).page = m.page :=
  recordPkgMessages_proj page (fun _ _ _ _ => rfl) (fun _ _ => rfl) m msgs

@[simp] theorem recordPkgMessages_aurHelperInstalled (m : Model) (msgs : List String) :
    (m.recordPkgMessages msgs).aurHelperInstalled = m.aurHelperInstalled :=
  recordPkgMessages_proj aurHelperInstalled (fun _ _ _ _ => rfl) (fun _ _ => rfl) m msgs

@[simp] theorem recordPkgMessages_awaitingPassword (m : Model) (msgs : List String) :
    (m.recordPkgMessages msgs).awaitingPassword = m.awaitingPassword :=
  recordPkgMessages_proj awaitingPassword (fun _ _ _ _ => rfl) (fun _ _ => rfl) m msgs

@[simp] theorem recordPkgMessages_dotfilesConfirmation (m : Model) (msgs : List String) :
    (m.recordPkgMessages msgs).dotfilesConfirmation = m.dotfilesConfirmation :=
  recordPkgMessages_proj dotfilesConfirmation (fun _ _ _ _ => rfl) (fun _ _ => rfl) m msgs

@[simp] theorem recordPkgMessages_backupConfirmation (m : Model) (msgs : List String) :
    (m.recordPkgMessages msgs).backupConfirmation = m.backupConfirmation :=
  recordPkgMessages_proj backupConfirmation (fun _ _ _ _ => rfl) (fun _ _ => rfl) m msgs

@[simp] theorem recordPkgMessages_errorMessage (m : Model) (msgs : List String) :
    (m.recordPkgMessages msgs).errorMessage = m.errorMessage :=
  recordPkgMessages_proj errorMessage (fun _ _ _ _ => rfl) (fun _ _ => rfl) m msgs

@[simp] theorem recordPkgMessages_effects (m : Model) (msgs : List String) :
    (m.recordPkgMessages msgs).effects = m.effects :=
  recordPkgMessages_proj effects (fun _ _ _ _ => rfl) (fun _ _ => rfl) m msgs

end Model

namespace Model

@[simp] theorem addTyped_packagesToInstall (m : Model) (t : MessageType) (c s : String) :
    (m.addTyped t c s).packagesToInstall = m.packagesToInstall := rfl

@[simp] theorem addTyped_installProgress (m : Model) (t : MessageType) (c s : String) :
    (m.addTyped t c s).installProgress = m.installProgress := rfl

@[simp] theorem addTyped_totalSteps (m : Model) (t : MessageType) (c s : String) :
    (m.addTyped t c s).totalSteps = m.totalSteps := rfl

@[simp] theorem addTyped_installPhase (m : Model) (t : MessageType) (c s : String) :
    (m.addTyped t c s).installPhase = m.installPhase := rfl

@[simp] theorem addTyped_hasConflict (m : Model) (t : MessageType) (c s : String) :
    (m.addTyped t c s).hasConflict = m.hasConflict := rfl

@[simp] theorem addTyped_conflictOption (m : Model) (t : MessageType) (c s : String) :
    (m.addTyped t c s).conflictOption = m.conflictOption := rfl

@[simp] theorem addTyped_conflictMessage (m : Model) (t : MessageType) (c s : String) :
    (m.addTyped t c s).conflictMessage = m.conflictMessage := rfl

@[simp] theorem addTyped_conflictPackage (m : Model) (t : MessageType) (c s : String) :
    (m.addTyped t c s).conflictPackage = m.conflictPackage := rfl

@[simp] theorem addTyped_skippedPackages (m : Model) (t : MessageType) (c s : String) :
    (m.addTyped t c s).skippedPackages = m.skippedPackages := rfl

@[simp] theorem addTyped_replaceAllPackages (m : Model) (t : MessageType) (c s : String) :
    (m.addTyped t c s).replaceAllPackages = m.replaceAllPackages := rfl

@[simp] theorem addTyped_page (m : Model) (t : MessageType) (c s : String) :
    (m.addTyped t c s).page = m.page := rfl

@[simp] theorem addTyped_aurHelperInstalled (m : Model) (t : MessageType) (c s : String) :
    (m.addTyped t c s).aurHelperInstalled = m.aurHelperInstalled := rfl

@[simp] theorem addTyped_awaitingPassword (m : Model) (t : MessageType) (c s : String) :
    (m.addTyped t c s).awaitingPassword = m.awaitingPassword := rfl

@[simp] theorem addTyped_dotfilesConfirmation (m : Model) (t : MessageType) (c s : String) :
    (m.addTyped t c s).dotfilesConfirmation = m.dotfilesConfirmation := rfl

@[simp] theorem addTyped_backupConfirmation (m : Model) (t : MessageType) (c s : String) :
    (m.addTyped t c s).backupConfirmation = m.backupConfirmation := rfl

@[simp] theorem addTyped_errorMessage (m : Model) (t : MessageType) (c s : String) :
    (m.addTyped t c s).errorMessage = m.errorMessage := rfl

@[simp] theorem addTyped_effects (m : Model) (t : MessageType) (c s : String) :
    (m.addTyped t c s).effects = m.effects := rfl

@[simp] theorem addTyped_currentStep (m : Model) (t : MessageType) (c s : String) :
    (m.addTyped t c s).currentStep = m.currentStep := rfl

@[simp] theorem sendUpdate_installProgress (m : Model) (msg src : String) :
    (m.sendUpdate msg src).installProgress = m.installProgress := rfl

@[simp] theorem sendUpdate_totalSteps (m : Model) (msg src : String) :
    (m.sendUpdate msg src).totalSteps = m.totalSteps := rfl

@[simp] theorem sendUpdate_effects (m : Model) (msg src : String) :
    (m.sendUpdate msg src).effects = m.effects := rfl

@[simp] theorem sendUpdate_installPhase (m : Model) (msg src : String) :
    (m.sendUpdate msg src).installPhase = m.installPhase := rfl

@[simp] theorem sendUpdate_hasConflict (m : Model) (msg src : String) :
    (m.sendUpdate msg src).hasConflict = m.hasConflict := rfl

@[simp] theorem sendUpdate_packagesToInstall (m : Model) (msg src : String) :
    (m.sendUpdate msg src).packagesToInstall = m.packagesToInstall := rfl

@[simp] theorem foldl_sendUpdate_installProgress (l : List String) (src : String)
    (m : Model) :
    (l.foldl (fun m s => m.sendUpdate s src) m).installProgress = m.installProgress :=
  foldl_model_proj installProgress (fun m s => m.sendUpdate s src) (fun _ _ => rfl) l m

@[simp] theorem foldl_sendUpdate_effects (l : List String) (src : String) (m : Model) :
    (l.foldl (fun m s => m.sendUpdate s src) m).effects = m.effects :=
  foldl_model_proj effects (fun m s => m.sendUpdate s src) (fun _ _ => rfl) l m

end Model



/-! ## Claims -/

/-- **C2.** For every sequence of lines appended to the bounded message
log of capacity `C ≥ 1`, the log's length is at most `C` after every
append; and once an append has overflowed (the number of appends exceeds
`C`), the log is exactly `prefix ++ truncation-marker :: suffix`, where
the prefix is the fixed first `C/4` messages ever appended and the
suffix is the most recent `C - C/4 - 1` appended messages in append
order (`ls.drop (ls.length - (C - C/4 - 1))`), with
`|prefix| + |suffix| = C - 1`.  Quantifying over all append sequences
`ls` covers the log after every append of a longer run. -/
theorem messageLog_bounded_and_truncation_shape (C : Nat) (hC : 1 ≤ C)
    (ls : List Message) :
    (Queue.runAdds C ls).length ≤ C ∧
    (C < ls.length →
      Queue.runAdds C ls =
        ls.take (C / 4) ++ truncationMarker ::
          ls.drop (ls.length - (C - C / 4 - 1)) ∧
      (ls.take (C / 4)).length +
        (ls.drop (ls.length - (C - C / 4 - 1))).length = C - 1) := by
  refine ⟨Queue.runAdds_length_le C hC ls, fun h => ?_⟩
  have hq4 : C / 4 < C := Nat.div_lt_self (by omega) (by omega)
  refine ⟨Queue.runAdds_overflow_recent C hC ls h, ?_⟩
  simp only [List.length_take, List.length_drop]
  omega

/-- Witness for C2: capacity 4, five distinct appends; the log becomes
the first appended message, the marker, and the two most recently
appended messages. -/
theorem messageLog_bounded_and_truncation_shape_witness :
    (Queue.runAdds 4 [NewInfoMessage "a" "s", NewInfoMessage "b" "s",
      NewInfoMessage "c" "s", NewInfoMessage "d" "s",
      NewInfoMessage "e" "s"]).length ≤ 4 ∧
    (Queue.runAdds 4 [NewInfoMessage "a" "s", NewInfoMessage "b" "s",
        NewInfoMessage "c" "s", NewInfoMessage "d" "s",
        NewInfoMessage "e" "s"] =
      [NewInfoMessage "a" "s", NewInfoMessage "b" "s", NewInfoMessage "c" "s",
        NewInfoMessage "d" "s", NewInfoMessage "e" "s"].take (4 / 4) ++
        truncationMarker ::
          [NewInfoMessage "a" "s", NewInfoMessage "b" "s", NewInfoMessage "c" "s",
            NewInfoMessage "d" "s", NewInfoMessage "e" "s"].drop
              (5 - (4 - 4 / 4 - 1)) ∧
      ([NewInfoMessage "a" "s", NewInfoMessage "b" "s", NewInfoMessage "c" "s",
          NewInfoMessage "d" "s", NewInfoMessage "e" "s"].take (4 / 4)).length +
        ([NewInfoMessage "a" "s", NewInfoMessage "b" "s", NewInfoMessage "c" "s",
          NewInfoMessage "d" "s", NewInfoMessage "e" "s"].drop
            (5 - (4 - 4 / 4 - 1))).length = 4 - 1) :=
  ⟨(messageLog_bounded_and_truncation_shape 4 (by decide)
      [NewInfoMessage "a" "s", NewInfoMessage "b" "s", NewInfoMessage "c" "s",
        NewInfoMessage "d" "s", NewInfoMessage "e" "s"]).1,
    (messageLog_bounded_and_truncation_shape 4 (by decide)
      [NewInfoMessage "a" "s", NewInfoMessage "b" "s", NewInfoMessage "c" "s",
        NewInfoMessage "d" "s", NewInfoMessage "e" "s"]).2 (by decide)⟩

/-- **C3 counterexample.** For a queue of 5 packages, the helper already
installed and 3 configuration directories, `startInstallation` computes
`totalSteps = 1 + 5 + 1 + 1 + 1 + 3 = 12`, not 10 as the claim states:
the code also counts the dotfiles-confirmation step and the backup step,
which the claimed breakdown omits. -/
theorem totalSteps_scenario_not_ten :
    ¬ (startInstallation ["pkg1", "pkg2", "pkg3", "pkg4", "pkg5"]
        ["dir1", "dir2", "dir3"]
        { initialModel with aurHelperInstalled := true }).1.totalSteps = 10 := by
  decide

/-- **C3 (amended).** `totalSteps` is computed once at session start and,
for an initial queue of 5 packages and 3 configuration directories,
equals 12: one helper-install step (counted even when the helper is
already installed — the formula does not consult `aurHelperInstalled`,
which is why `m` is arbitrary here), 5 package steps, one
dotfiles-confirmation step, one backup step, one repository-clone step,
and 3 configuration-directory steps. -/
theorem totalSteps_scenario_equals_twelve (m : Model) (pkgs dirs : List String)
    (hp : pkgs.length = 5) (hd : dirs.length = 3) :
    (startInstallation pkgs dirs m).1.totalSteps = 12 := by
  simp [startInstallation, hp, hd]

/-- Witness for the amended C3. -/
theorem totalSteps_scenario_equals_twelve_witness :
    (startInstallation ["pkg1", "pkg2", "pkg3", "pkg4", "pkg5"]
      ["dir1", "dir2", "dir3"]
      { initialModel with aurHelperInstalled := true }).1.totalSteps = 12 :=
  totalSteps_scenario_equals_twelve _ _ _ (by decide) (by decide)

/-- **C7.** When the helper executable is already on the search path,
`Helper.Install` returns at once with the single informational message
"AUR helper already installed", no error, and an empty effect list: no
subprocess is spawned and no temporary directory is created; and because
the world is returned unchanged, repeating the call yields the same
result (idempotence). -/
theorem helper_install_idempotent_when_installed (name pw : String)
    (env : InstallEnv) (w : AurWorld) (h : w.helperOnPath = true) :
    Helper.install name pw env w = (w, ["AUR helper already installed"], none, []) ∧
    Helper.install name pw env (Helper.install name pw env w).1 =
      Helper.install name pw env w := by
  have h1 : Helper.install name pw env w =
      (w, ["AUR helper already installed"], none, []) := by
    unfold Helper.install
    rw [h]
    rfl
  refine ⟨h1, ?_⟩
  rw [h1]
  exact h1

/-- Witness for C7. -/
theorem helper_install_idempotent_when_installed_witness :
    Helper.install "yay" ""
        ⟨none, none, none, none, [], none, none, none, none, none, none, 0, [],
          .timedOut⟩
        ⟨true, none, none⟩ =
      (⟨true, none, none⟩, ["AUR helper already installed"], none, []) ∧
    Helper.install "yay" ""
        ⟨none, none, none, none, [], none, none, none, none, none, none, 0, [],
          .timedOut⟩
        (Helper.install "yay" ""
          ⟨none, none, none, none, [], none, none, none, none, none, none, 0, [],
            .timedOut⟩
          ⟨true, none, none⟩).1 =
      Helper.install "yay" ""
        ⟨none, none, none, none, [], none, none, none, none, none, none, 0, [],
          .timedOut⟩
        ⟨true, none, none⟩ :=
  helper_install_idempotent_when_installed "yay" "" _ _ rfl

/-- **C10.** `Helper.InstallPackages` on an empty package list returns
success immediately with the single message "No packages to install":
the effect list is empty (no pkill, no settle delay, no spawn) and the
world — in particular the global `currentCmd`/`stdinPipe` slot — is
returned unchanged, for every environment oracle. -/
theorem installPackages_empty_list_noop (command pw : String)
    (env : PkgInstallEnv) (w : AurWorld) :
    Helper.installPackages command pw [] env w =
      (w, ["No packages to install"], none, []) := rfl

/-- **C4 counterexample.** On the 30-minute deadline the code runs
`cmd.Process.Kill()`, which signals only the direct child's PID.  For a
process whose group holds a second PID (here 2), no kill effect is ever
issued for it, so the claim's "full process group is terminated" is
false — even though the timed-out error itself is returned as claimed. -/
theorem timeout_kills_only_direct_process :
    (Helper.installPackages "yay" "" ["pkgA"]
        ⟨none, none, none, none, ⟨1, [1, 2]⟩, [], .timedOut⟩
        ⟨true, none, none⟩).2.2.1 = some "command timed out after 30 minutes" ∧
    Effect.kill 1 ∈
      (Helper.installPackages "yay" "" ["pkgA"]
        ⟨none, none, none, none, ⟨1, [1, 2]⟩, [], .timedOut⟩
        ⟨true, none, none⟩).2.2.2 ∧
    ¬ processGroupTerminated ⟨1, [1, 2]⟩
      (Helper.installPackages "yay" "" ["pkgA"]
        ⟨none, none, none, none, ⟨1, [1, 2]⟩, [], .timedOut⟩
        ⟨true, none, none⟩).2.2.2 := by
  decide

/-- **C4 (amended).** If the select loop of `Helper.InstallPackages`
observes the 30-minute deadline, the operation returns the timed-out
error, a kill effect is issued for the direct subprocess's PID (but only
for that single PID, not its whole process group — see the
counterexample), and when the TUI receives that error it surfaces it as
a fatal step error (it contains no conflict token) and schedules no
follow-up command: the step is never retried. -/
theorem timeout_fatal_surfaced_not_retried
    (command pw : String) (pkgs : List String) (env : PkgInstallEnv) (w : AurWorld)
    (outcome : String → List String × Option String)
    (m : Model) (pkg : String) (rest : List String)
    (hne : pkgs ≠ [])
    (hp1 : env.stdinPipeErr = none) (hp2 : env.stdoutPipeErr = none)
    (hp3 : env.stderrPipeErr = none) (hp4 : env.startErr = none)
    (hev : env.event = .timedOut)
    (hq : m.packagesToInstall = pkg :: rest)
    (hout : outcome pkg =
      ((Helper.installPackages command pw pkgs env w).2.1,
       (Helper.installPackages command pw pkgs env w).2.2.1)) :
    (Helper.installPackages command pw pkgs env w).2.2.1 =
      some "command timed out after 30 minutes" ∧
    Effect.kill env.proc.pid ∈ (Helper.installPackages command pw pkgs env w).2.2.2 ∧
    (installNextPackage outcome m).2.error = some "command timed out after 30 minutes" ∧
    handleInstallProgressFn (installNextPackage outcome m).1
        (installNextPackage outcome m).2 =
      ({ (installNextPackage outcome m).1 with
          errorMessage := "command timed out after 30 minutes" }, .noCmd) := by
  have hisE : pkgs.isEmpty = false := by
    cases pkgs with
    | nil => exact absurd rfl hne
    | cons a t => rfl
  have herr : (Helper.installPackages command pw pkgs env w).2.2.1 =
      some "command timed out after 30 minutes" := by
    unfold Helper.installPackages
    rw [hisE, hp1, hp2, hp3, hp4, hev]
    rfl
  have hkill : Effect.kill env.proc.pid ∈
      (Helper.installPackages command pw pkgs env w).2.2.2 := by
    unfold Helper.installPackages
    rw [hisE, hp1, hp2, hp3, hp4, hev]
    simp
  have hstep : (installNextPackage outcome m).2.error =
        some "command timed out after 30 minutes" ∧
      (installNextPackage outcome m).2.isComplete = false ∧
      (installNextPackage outcome m).2.hasConflict = false ∧
      (installNextPackage outcome m).2.isDotfilesConfirmation = false ∧
      (installNextPackage outcome m).2.isBackupConfirmation = false := by
    have hdet : detectsConflictLine "command timed out after 30 minutes" = false := by
      decide
    unfold installNextPackage
    rw [hq]
    rw [herr] at hout
    simp [installLoop, hout, hdet, NewInstallProgressMsg]
  refine ⟨herr, hkill, hstep.1, ?_⟩
  unfold handleInstallProgressFn
  rw [hstep.2.1, hstep.2.2.1, hstep.2.2.2.1, hstep.2.2.2.2, hstep.1]
  simp

/-- Witness for the amended C4. -/
theorem timeout_fatal_surfaced_not_retried_witness :
    (Helper.installPackages "yay" "" ["pkgA"]
        ⟨none, none, none, none, ⟨7, [7]⟩, [], .timedOut⟩
        ⟨true, none, none⟩).2.2.1 = some "command timed out after 30 minutes" ∧
    Effect.kill 7 ∈
      (Helper.installPackages "yay" "" ["pkgA"]
        ⟨none, none, none, none, ⟨7, [7]⟩, [], .timedOut⟩
        ⟨true, none, none⟩).2.2.2 ∧
    (installNextPackage
        (fun _ =>
          ((Helper.installPackages "yay" "" ["pkgA"]
              ⟨none, none, none, none, ⟨7, [7]⟩, [], .timedOut⟩
              ⟨true, none, none⟩).2.1,
           (Helper.installPackages "yay" "" ["pkgA"]
              ⟨none, none, none, none, ⟨7, [7]⟩, [], .timedOut⟩
              ⟨true, none, none⟩).2.2.1))
        { initialModel with packagesToInstall := ["pkgA"] }).2.error =
      some "command timed out after 30 minutes" ∧
    handleInstallProgressFn
        (installNextPackage
          (fun _ =>
            ((Helper.installPackages "yay" "" ["pkgA"]
                ⟨none, none, none, none, ⟨7, [7]⟩, [], .timedOut⟩
                ⟨true, none, none⟩).2.1,
             (Helper.installPackages "yay" "" ["pkgA"]
                ⟨none, none, none, none, ⟨7, [7]⟩, [], .timedOut⟩
                ⟨true, none, none⟩).2.2.1))
          { initialModel with packagesToInstall := ["pkgA"] }).1
        (installNextPackage
          (fun _ =>
            ((Helper.installPackages "yay" "" ["pkgA"]
                ⟨none, none, none, none, ⟨7, [7]⟩, [], .timedOut⟩
                ⟨true, none, none⟩).2.1,
             (Helper.installPackages "yay" "" ["pkgA"]
                ⟨none, none, none, none, ⟨7, [7]⟩, [], .timedOut⟩
                ⟨true, none, none⟩).2.2.1))
          { initialModel with packagesToInstall := ["pkgA"] }).2 =
      ({ (installNextPackage
            (fun _ =>
              ((Helper.installPackages "yay" "" ["pkgA"]
                  ⟨none, none, none, none, ⟨7, [7]⟩, [], .timedOut⟩
                  ⟨true, none, none⟩).2.1,
               (Helper.installPackages "yay" "" ["pkgA"]
                  ⟨none, none, none, none, ⟨7, [7]⟩, [], .timedOut⟩
                  ⟨true, none, none⟩).2.2.1))
            { initialModel with packagesToInstall := ["pkgA"] }).1 with
          errorMessage := "command timed out after 30 minutes" }, .noCmd) :=
  timeout_fatal_surfaced_not_retried "yay" "" ["pkgA"]
    ⟨none, none, none, none, ⟨7, [7]⟩, [], .timedOut⟩ ⟨true, none, none⟩
    _ _ "pkgA" [] (by decide) rfl rfl rfl rfl rfl rfl rfl

/-- **C5 counterexample.** Per-line conflict detection is
`strings.Contains(line, "conflict")`, which is case-sensitive: a line
carrying the token as "CONFLICT" or "Conflict" is NOT tagged as a
conflict, contradicting the claim that classification returns Conflict
"in any letter case".  (Only the exact lowercase token matches.) -/
theorem conflict_detection_not_case_insensitive :
    detectsConflictLine "CONFLICT: /usr/bin/foo exists in filesystem" = false ∧
    detectsConflictLine "Conflict: /usr/bin/foo exists in filesystem" = false ∧
    detectsConflictLine "conflict: /usr/bin/foo exists in filesystem" = true := by
  decide

/-- **C5 (amended).** Conflict detection on subprocess output lines is
case-sensitive: a line is tagged as conflict exactly when it contains
the lowercase token "conflict".  On such lines conflict classification
wins: the UI classifier `AddMessage` (which lowercases first, so any
letter case reaches this branch) puts every conflict-bearing line into
its error class, checked before the warning branch; and at batch level,
when the helper exits with an error while a conflict line was observed,
`InstallPackages` reports the conflict error rather than the generic
command failure. -/
theorem conflict_classification_case_sensitive_precedence
    (line content command pw e cmsg : String) (pkgs : List String)
    (env : PkgInstallEnv) (w : AurWorld)
    (hline : strContains line "conflict" = true)
    (hcontent : hasInfix "conflict".toList (goToLower (goTrim content.toList)) = true)
    (hne : pkgs ≠ [])
    (hp1 : env.stdinPipeErr = none) (hp2 : env.stdoutPipeErr = none)
    (hp3 : env.stderrPipeErr = none) (hp4 : env.startErr = none)
    (hev : env.event = .exited (some e))
    (hconf : firstConflict env.outputLines = some cmsg) :
    detectsConflictLine line = true ∧
    addMessageType content = .error ∧
    (Helper.installPackages command pw pkgs env w).2.2.1 =
      some ("package conflict detected: " ++ cmsg) := by
  refine ⟨hline, ?_, ?_⟩
  · have h : (hasInfix "error".toList (goToLower (goTrim content.toList)) ||
        hasInfix "failed".toList (goToLower (goTrim content.toList)) ||
        hasInfix "conflict".toList (goToLower (goTrim content.toList))) = true := by
      rw [hcontent, Bool.or_true]
    simp only [addMessageType]
    rw [h]
    rfl
  · have hisE : pkgs.isEmpty = false := by
      cases pkgs with
      | nil => exact absurd rfl hne
      | cons a t => rfl
    unfold Helper.installPackages
    rw [hisE, hp1, hp2, hp3, hp4, hev, hconf]
    rfl

/-- **C1.** When installing `pkg` from queue `pkg :: rest` raises a
conflict (the helper's error text carries the conflict token and
Replace-All is not set), the state machine suspends with
`conflictPackage = pkg` and the queue already reduced to `rest` (the
trigger is popped at the start of its attempt); applying the Skip
resolution leaves the queue exactly `rest` — the original queue minus
precisely the triggering package, every other queued package retained in
order — clears the conflict flag, and records the trigger in the skipped
set. -/
theorem skip_resolution_removes_exactly_conflicting_package
    (outcome : String → List String × Option String)
    (m : Model) (pkg : String) (rest msgs : List String) (e : String)
    (hq : m.packagesToInstall = pkg :: rest)
    (hra : m.replaceAllPackages = false)
    (hpkg : pkg ≠ "")
    (hout : outcome pkg = (msgs, some e))
    (hdet : detectsConflictLine e = true) :
    (installNextPackage outcome m).1.packagesToInstall = rest ∧
    (installNextPackage outcome m).1.hasConflict = true ∧
    (installNextPackage outcome m).1.conflictPackage = pkg ∧
    (installNextPackage outcome m).2 = NewConflictMsg e ∧
    (applyConflictChoice
      { (handleInstallProgressFn (installNextPackage outcome m).1
          (installNextPackage outcome m).2).1 with
        conflictOption := 0 }).packagesToInstall = rest ∧
    (applyConflictChoice
      { (handleInstallProgressFn (installNextPackage outcome m).1
          (installNextPackage outcome m).2).1 with
        conflictOption := 0 }).hasConflict = false ∧
    (applyConflictChoice
      { (handleInstallProgressFn (installNextPackage outcome m).1
          (installNextPackage outcome m).2).1 with
        conflictOption := 0 }).skippedPackages = m.skippedPackages ++ [pkg] := by
  have hmsg : (installNextPackage outcome m).2 = NewConflictMsg e := by
    unfold installNextPackage
    rw [hq]
    simp [installLoop, hout, hdet, hra]
  have hqueue : (installNextPackage outcome m).1.packagesToInstall = rest := by
    unfold installNextPackage
    rw [hq]
    simp [installLoop, hout, hdet, hra]
  have hconf : (installNextPackage outcome m).1.hasConflict = true := by
    unfold installNextPackage
    rw [hq]
    simp [installLoop, hout, hdet, hra]
  have hcpkg : (installNextPackage outcome m).1.conflictPackage = pkg := by
    unfold installNextPackage
    rw [hq]
    simp [installLoop, hout, hdet, hra]
  have hskip : (installNextPackage outcome m).1.skippedPackages = m.skippedPackages := by
    unfold installNextPackage
    rw [hq]
    simp [installLoop, hout, hdet, hra]
  refine ⟨hqueue, hconf, hcpkg, hmsg, ?_, ?_, ?_⟩ <;>
    simp [hmsg, handleInstallProgressFn, NewConflictMsg, applyConflictChoice,
      hqueue, hcpkg, hskip, hpkg]

/-- Witness for C1. -/
theorem skip_resolution_removes_exactly_conflicting_package_witness :
    (installNextPackage (fun _ => ([], some "package conflict detected: foo"))
        { initialModel with
          packagesToInstall := ["pkgA", "pkgB"] }).1.packagesToInstall = ["pkgB"] ∧
    (installNextPackage (fun _ => ([], some "package conflict detected: foo"))
        { initialModel with
          packagesToInstall := ["pkgA", "pkgB"] }).1.hasConflict = true ∧
    (installNextPackage (fun _ => ([], some "package conflict detected: foo"))
        { initialModel with
          packagesToInstall := ["pkgA", "pkgB"] }).1.conflictPackage = "pkgA" ∧
    (installNextPackage (fun _ => ([], some "package conflict detected: foo"))
        { initialModel with
          packagesToInstall := ["pkgA", "pkgB"] }).2 =
      NewConflictMsg "package conflict detected: foo" ∧
    (applyConflictChoice
      { (handleInstallProgressFn
          (installNextPackage (fun _ => ([], some "package conflict detected: foo"))
            { initialModel with packagesToInstall := ["pkgA", "pkgB"] }).1
          (installNextPackage (fun _ => ([], some "package conflict detected: foo"))
            { initialModel with packagesToInstall := ["pkgA", "pkgB"] }).2).1 with
        conflictOption := 0 }).packagesToInstall = ["pkgB"] ∧
    (applyConflictChoice
      { (handleInstallProgressFn
          (installNextPackage (fun _ => ([], some "package conflict detected: foo"))
            { initialModel with packagesToInstall := ["pkgA", "pkgB"] }).1
          (installNextPackage (fun _ => ([], some "package conflict detected: foo"))
            { initialModel with packagesToInstall := ["pkgA", "pkgB"] }).2).1 with
        conflictOption := 0 }).hasConflict = false ∧
    (applyConflictChoice
      { (handleInstallProgressFn
          (installNextPackage (fun _ => ([], some "package conflict detected: foo"))
            { initialModel with packagesToInstall := ["pkgA", "pkgB"] }).1
          (installNextPackage (fun _ => ([], some "package conflict detected: foo"))
            { initialModel with packagesToInstall := ["pkgA", "pkgB"] }).2).1 with
        conflictOption := 0 }).skippedPackages =
      ({ initialModel with
          packagesToInstall := ["pkgA", "pkgB"] } : Model).skippedPackages ++ ["pkgA"] :=
  skip_resolution_removes_exactly_conflicting_package
    (fun _ => ([], some "package conflict detected: foo"))
    { initialModel with packagesToInstall := ["pkgA", "pkgB"] }
    "pkgA" ["pkgB"] [] "package conflict detected: foo"
    rfl rfl (by decide) rfl (by decide)

/-- **C9 counterexample.** Queue `[pkgA, pkgB]` starting at progress 1;
`pkgA` succeeds, `pkgB` reports a conflict.  The loop's state just
before `pkgB`'s attempt has progress 2 (shown by the equality with the
intermediate state), but in the conflict-pending state progress is 3:
`installNextPackage` increments the counter at the start of each attempt
and does not roll it back when the attempt raises a conflict.  The
claim's "progress unchanged from its value before pkgB's install
attempt" is therefore false. -/
theorem conflict_pending_progress_not_unchanged :
    installNextPackage
        (fun pkg => if pkg = "pkgB" then
            ([], some "package conflict detected: x conflicts with y")
          else ([], none))
        { initialModel with
          packagesToInstall := ["pkgA", "pkgB"]
          aurHelperInstalled := true
          installPhase := "Package Installation"
          installProgress := 1
          totalSteps := 9 } =
      installLoop
        (fun pkg => if pkg = "pkgB" then
            ([], some "package conflict detected: x conflicts with y")
          else ([], none))
        ["pkgB"]
        { initialModel with
          packagesToInstall := ["pkgB"]
          aurHelperInstalled := true
          installPhase := "Package Installation"
          installProgress := 2
          totalSteps := 9 } ∧
    (installNextPackage
        (fun pkg => if pkg = "pkgB" then
            ([], some "package conflict detected: x conflicts with y")
          else ([], none))
        { initialModel with
          packagesToInstall := ["pkgA", "pkgB"]
          aurHelperInstalled := true
          installPhase := "Package Installation"
          installProgress := 1
          totalSteps := 9 }).1.hasConflict = true ∧
    ¬ ((installNextPackage
        (fun pkg => if pkg = "pkgB" then
            ([], some "package conflict detected: x conflicts with y")
          else ([], none))
        { initialModel with
          packagesToInstall := ["pkgA", "pkgB"]
          aurHelperInstalled := true
          installPhase := "Package Installation"
          installProgress := 1
          totalSteps := 9 }).1.installProgress = 2) := by
  decide

/-- **C9 (amended).** Queue exactly `[pkgA, pkgB]`, `pkgA` succeeds,
`pkgB` reports a conflict: the machine enters conflict-pending with
`conflictPackage = "pkgB"`, the queue already empty, and progress equal
to its value before `pkgB`'s attempt **plus one** (the increment happens
at the start of the attempt, before the conflict is detected; compare
the counterexample).  Resolving with Skip leaves the queue empty,
advances the phase to `dotfiles_confirmation` (emitting the dotfiles
confirmation request), records `pkgB` as skipped, and leaves progress
unchanged from the conflict-pending value. -/
theorem two_package_conflict_scenario
    (outcome : String → List String × Option String) (env : SessionEnv)
    (m : Model) (msgsA msgsB : List String) (e : String)
    (hq : m.packagesToInstall = ["pkgA", "pkgB"])
    (hra : m.replaceAllPackages = false)
    (hA : outcome "pkgA" = (msgsA, none))
    (hB : outcome "pkgB" = (msgsB, some e))
    (hdet : detectsConflictLine e = true)
    (hph1 : m.installPhase ≠ "dotfiles_confirmation")
    (hph2 : m.installPhase ≠ "backup_confirmation")
    (hhelper : m.aurHelperInstalled = true) :
    (installNextPackage outcome m).1.hasConflict = true ∧
    (installNextPackage outcome m).1.conflictPackage = "pkgB" ∧
    (installNextPackage outcome m).2 = NewConflictMsg e ∧
    (installNextPackage outcome m).1.installProgress = m.installProgress + 2 ∧
    (installNextPackage outcome m).1.packagesToInstall = [] ∧
    (handleConflictEnter outcome env
      { (handleInstallProgressFn (installNextPackage outcome m).1
          (installNextPackage outcome m).2).1 with
        conflictOption := 0 }).1.packagesToInstall = [] ∧
    (handleConflictEnter outcome env
      { (handleInstallProgressFn (installNextPackage outcome m).1
          (installNextPackage outcome m).2).1 with
        conflictOption := 0 }).1.installPhase = "dotfiles_confirmation" ∧
    (handleConflictEnter outcome env
      { (handleInstallProgressFn (installNextPackage outcome m).1
          (installNextPackage outcome m).2).1 with
        conflictOption := 0 }).2 = some NewDotfilesConfirmationMsg ∧
    (handleConflictEnter outcome env
      { (handleInstallProgressFn (installNextPackage outcome m).1
          (installNextPackage outcome m).2).1 with
        conflictOption := 0 }).1.installProgress = m.installProgress + 2 ∧
    "pkgB" ∈ (handleConflictEnter outcome env
      { (handleInstallProgressFn (installNextPackage outcome m).1
          (installNextPackage outcome m).2).1 with
        conflictOption := 0 }).1.skippedPackages := by
  have hmsg : (installNextPackage outcome m).2 = NewConflictMsg e := by
    unfold installNextPackage
    rw [hq]
    simp [installLoop, hA, hB, hdet, hra]
  have hqueue : (installNextPackage outcome m).1.packagesToInstall = [] := by
    unfold installNextPackage
    rw [hq]
    simp [installLoop, hA, hB, hdet, hra]
  have hconf : (installNextPackage outcome m).1.hasConflict = true := by
    unfold installNextPackage
    rw [hq]
    simp [installLoop, hA, hB, hdet, hra]
  have hcpkg : (installNextPackage outcome m).1.conflictPackage = "pkgB" := by
    unfold installNextPackage
    rw [hq]
    simp [installLoop, hA, hB, hdet, hra]
  have hprog : (installNextPackage outcome m).1.installProgress =
      m.installProgress + 2 := by
    unfold installNextPackage
    rw [hq]
    simp [installLoop, hA, hB, hdet, hra]
  have hphase : (installNextPackage outcome m).1.installPhase = m.installPhase := by
    unfold installNextPackage
    rw [hq]
    simp [installLoop, hA, hB, hdet, hra]
  have hhelp : (installNextPackage outcome m).1.aurHelperInstalled = true := by
    unfold installNextPackage
    rw [hq]
    simp [installLoop, hA, hB, hdet, hra, hhelper]
  refine ⟨hconf, hcpkg, hmsg, hprog, hqueue, ?_, ?_, ?_, ?_, ?_⟩ <;>
    simp [hmsg, handleInstallProgressFn, NewConflictMsg, handleConflictEnter,
      applyConflictChoice, continueInstallation,
      hqueue, hcpkg, hprog, hphase, hhelp, hph1, hph2]

/-- Witness for the amended C9. -/
theorem two_package_conflict_scenario_witness :
    (installNextPackage
        (fun pkg => if pkg = "pkgB" then ([], some "package conflict detected: z")
          else ([], none))
        { initialModel with
          packagesToInstall := ["pkgA", "pkgB"]
          aurHelperInstalled := true
          installPhase := "Package Installation"
          installProgress := 1
          totalSteps := 9 }).1.hasConflict = true ∧
    (installNextPackage
        (fun pkg => if pkg = "pkgB" then ([], some "package conflict detected: z")
          else ([], none))
        { initialModel with
          packagesToInstall := ["pkgA", "pkgB"]
          aurHelperInstalled := true
          installPhase := "Package Installation"
          installProgress := 1
          totalSteps := 9 }).1.conflictPackage = "pkgB" ∧
    (installNextPackage
        (fun pkg => if pkg = "pkgB" then ([], some "package conflict detected: z")
          else ([], none))
        { initialModel with
          packagesToInstall := ["pkgA", "pkgB"]
          aurHelperInstalled := true
          installPhase := "Package Installation"
          installProgress := 1
          totalSteps := 9 }).2 = NewConflictMsg "package conflict detected: z" ∧
    (installNextPackage
        (fun pkg => if pkg = "pkgB" then ([], some "package conflict detected: z")
          else ([], none))
        { initialModel with
          packagesToInstall := ["pkgA", "pkgB"]
          aurHelperInstalled := true
          installPhase := "Package Installation"
          installProgress := 1
          totalSteps := 9 }).1.installProgress =
      ({ initialModel with
          packagesToInstall := ["pkgA", "pkgB"]
          aurHelperInstalled := true
          installPhase := "Package Installation"
          installProgress := 1
          totalSteps := 9 } : Model).installProgress + 2 ∧
    (installNextPackage
        (fun pkg => if pkg = "pkgB" then ([], some "package conflict detected: z")
          else ([], none))
        { initialModel with
          packagesToInstall := ["pkgA", "pkgB"]
          aurHelperInstalled := true
          installPhase := "Package Installation"
          installProgress := 1
          totalSteps := 9 }).1.packagesToInstall = [] ∧
    (handleConflictEnter
        (fun pkg => if pkg = "pkgB" then ([], some "package conflict detected: z")
          else ([], none))
        { homeDir := "/home/u", configRepo := "repo", configDirs := [".config"],
          helperName := "yay", aurEvent := .done,
          dotfiles := ⟨none, false, none, none, none, none, [], none, some [],
            fun _ => false, fun _ => none, fun _ => none, false, false, false⟩,
          backup := ⟨none, none, fun _ => false, fun _ => none, fun _ => none⟩ }
        { (handleInstallProgressFn
            (installNextPackage
              (fun pkg => if pkg = "pkgB" then ([], some "package conflict detected: z")
                else ([], none))
              { initialModel with
                packagesToInstall := ["pkgA", "pkgB"]
                aurHelperInstalled := true
                installPhase := "Package Installation"
                installProgress := 1
                totalSteps := 9 }).1
            (installNextPackage
              (fun pkg => if pkg = "pkgB" then ([], some "package conflict detected: z")
                else ([], none))
              { initialModel with
                packagesToInstall := ["pkgA", "pkgB"]
                aurHelperInstalled := true
                installPhase := "Package Installation"
                installProgress := 1
                totalSteps := 9 }).2).1 with
          conflictOption := 0 }).1.packagesToInstall = [] ∧
    (handleConflictEnter
        (fun pkg => if pkg = "pkgB" then ([], some "package conflict detected: z")
          else ([], none))
        { homeDir := "/home/u", configRepo := "repo", configDirs := [".config"],
          helperName := "yay", aurEvent := .done,
          dotfiles := ⟨none, false, none, none, none, none, [], none, some [],
            fun _ => false, fun _ => none, fun _ => none, false, false, false⟩,
          backup := ⟨none, none, fun _ => false, fun _ => none, fun _ => none⟩ }
        { (handleInstallProgressFn
            (installNextPackage
              (fun pkg => if pkg = "pkgB" then ([], some "package conflict detected: z")
                else ([], none))
              { initialModel with
                packagesToInstall := ["pkgA", "pkgB"]
                aurHelperInstalled := true
                installPhase := "Package Installation"
                installProgress := 1
                totalSteps := 9 }).1
            (installNextPackage
              (fun pkg => if pkg = "pkgB" then ([], some "package conflict detected: z")
                else ([], none))
              { initialModel with
                packagesToInstall := ["pkgA", "pkgB"]
                aurHelperInstalled := true
                installPhase := "Package Installation"
                installProgress := 1
                totalSteps := 9 }).2).1 with
          conflictOption := 0 }).1.installPhase = "dotfiles_confirmation" ∧
    (handleConflictEnter
        (fun pkg => if pkg = "pkgB" then ([], some "package conflict detected: z")
          else ([], none))
        { homeDir := "/home/u", configRepo := "repo", configDirs := [".config"],
          helperName := "yay", aurEvent := .done,
          dotfiles := ⟨none, false, none, none, none, none, [], none, some [],
            fun _ => false, fun _ => none, fun _ => none, false, false, false⟩,
          backup := ⟨none, none, fun _ => false, fun _ => none, fun _ => none⟩ }
        { (handleInstallProgressFn
            (installNextPackage
              (fun pkg => if pkg = "pkgB" then ([], some "package conflict detected: z")
                else ([], none))
              { initialModel with
                packagesToInstall := ["pkgA", "pkgB"]
                aurHelperInstalled := true
                installPhase := "Package Installation"
                installProgress := 1
                totalSteps := 9 }).1
            (installNextPackage
              (fun pkg => if pkg = "pkgB" then ([], some "package conflict detected: z")
                else ([], none))
              { initialModel with
                packagesToInstall := ["pkgA", "pkgB"]
                aurHelperInstalled := true
                installPhase := "Package Installation"
                installProgress := 1
                totalSteps := 9 }).2).1 with
          conflictOption := 0 }).2 = some NewDotfilesConfirmationMsg ∧
    (handleConflictEnter
        (fun pkg => if pkg = "pkgB" then ([], some "package conflict detected: z")
          else ([], none))
        { homeDir := "/home/u", configRepo := "repo", configDirs := [".config"],
          helperName := "yay", aurEvent := .done,
          dotfiles := ⟨none, false, none, none, none, none, [], none, some [],
            fun _ => false, fun _ => none, fun _ => none, false, false, false⟩,
          backup := ⟨none, none, fun _ => false, fun _ => none, fun _ => none⟩ }
        { (handleInstallProgressFn
            (installNextPackage
              (fun pkg => if pkg = "pkgB" then ([], some "package conflict detected: z")
                else ([], none))
              { initialModel with
                packagesToInstall := ["pkgA", "pkgB"]
                aurHelperInstalled := true
                installPhase := "Package Installation"
                installProgress := 1
                totalSteps := 9 }).1
            (installNextPackage
              (fun pkg => if pkg = "pkgB" then ([], some "package conflict detected: z")
                else ([], none))
              { initialModel with
                packagesToInstall := ["pkgA", "pkgB"]
                aurHelperInstalled := true
                installPhase := "Package Installation"
                installProgress := 1
                totalSteps := 9 }).2).1 with
          conflictOption := 0 }).1.installProgress =
      ({ initialModel with
          packagesToInstall := ["pkgA", "pkgB"]
          aurHelperInstalled := true
          installPhase := "Package Installation"
          installProgress := 1
          totalSteps := 9 } : Model).installProgress + 2 ∧
    "pkgB" ∈ (handleConflictEnter
        (fun pkg => if pkg = "pkgB" then ([], some "package conflict detected: z")
          else ([], none))
        { homeDir := "/home/u", configRepo := "repo", configDirs := [".config"],
          helperName := "yay", aurEvent := .done,
          dotfiles := ⟨none, false, none, none, none, none, [], none, some [],
            fun _ => false, fun _ => none, fun _ => none, false, false, false⟩,
          backup := ⟨none, none, fun _ => false, fun _ => none, fun _ => none⟩ }
        { (handleInstallProgressFn
            (installNextPackage
              (fun pkg => if pkg = "pkgB" then ([], some "package conflict detected: z")
                else ([], none))
              { initialModel with
                packagesToInstall := ["pkgA", "pkgB"]
                aurHelperInstalled := true
                installPhase := "Package Installation"
                installProgress := 1
                totalSteps := 9 }).1
            (installNextPackage
              (fun pkg => if pkg = "pkgB" then ([], some "package conflict detected: z")
                else ([], none))
              { initialModel with
                packagesToInstall := ["pkgA", "pkgB"]
                aurHelperInstalled := true
                installPhase := "Package Installation"
                installProgress := 1
                totalSteps := 9 }).2).1 with
          conflictOption := 0 }).1.skippedPackages :=
  two_package_conflict_scenario
    (fun pkg => if pkg = "pkgB" then ([], some "package conflict detected: z")
      else ([], none))
    { homeDir := "/home/u", configRepo := "repo", configDirs := [".config"],
      helperName := "yay", aurEvent := .done,
      dotfiles := ⟨none, false, none, none, none, none, [], none, some [],
        fun _ => false, fun _ => none, fun _ => none, false, false, false⟩,
      backup := ⟨none, none, fun _ => false, fun _ => none, fun _ => none⟩ }
    { initialModel with
      packagesToInstall := ["pkgA", "pkgB"]
      aurHelperInstalled := true
      installPhase := "Package Installation"
      installProgress := 1
      totalSteps := 9 }
    [] [] "package conflict detected: z"
    rfl rfl rfl rfl (by decide) (by decide) (by decide) rfl

/-- **C8.** If the configuration-repository clone subprocess exits
successfully (`waitErr = none`) but the checkout directory contains no
entries, `installDotfiles` returns the error "repository cloned but
appears to be empty"; no configuration-directory copy is attempted (no
new `copyDir` effect appears), progress advanced only by the single
clone step, and the TUI turns the message into a session failure
(`errorMessage` set, no follow-up command). -/
theorem empty_clone_fatal_no_copies (env : SessionEnv) (m : Model)
    (h1 : env.dotfiles.homeDirErr = none)
    (h2 : env.dotfiles.removeErr = none)
    (h3 : env.dotfiles.stdoutPipeErr = none)
    (h4 : env.dotfiles.stderrPipeErr = none)
    (h5 : env.dotfiles.startErr = none)
    (h6 : env.dotfiles.waitErr = none)
    (h7 : env.dotfiles.readDirEntries = some []) :
    (installDotfiles env m).2.error =
      some "repository cloned but appears to be empty" ∧
    (installDotfiles env m).1.installProgress = m.installProgress + 1 ∧
    (∀ s t, TuiEffect.copyDir s t ∈ (installDotfiles env m).1.effects →
      TuiEffect.copyDir s t ∈ m.effects) ∧
    handleInstallProgressFn (installDotfiles env m).1 (installDotfiles env m).2 =
      ({ (installDotfiles env m).1 with
          errorMessage := "repository cloned but appears to be empty" }, .noCmd) := by
  by_cases hex : env.dotfiles.hyprLunaExists <;>
    refine ⟨?_, ?_, ?_, ?_⟩ <;>
      simp [installDotfiles, h1, h2, h3, h4, h5, h6, h7, hex,
        handleInstallProgressFn, NewInstallProgressMsg]

/-- Witness for C8. -/
theorem empty_clone_fatal_no_copies_witness :
    (installDotfiles
        { homeDir := "/home/u", configRepo := "repo", configDirs := [".config"],
          helperName := "yay", aurEvent := .done,
          dotfiles := ⟨none, true, none, none, none, none, ["line"], none, some [],
            fun _ => true, fun _ => none, fun _ => none, true, true, true⟩,
          backup := ⟨none, none, fun _ => false, fun _ => none, fun _ => none⟩ }
        initialModel).2.error =
      some "repository cloned but appears to be empty" ∧
    (installDotfiles
        { homeDir := "/home/u", configRepo := "repo", configDirs := [".config"],
          helperName := "yay", aurEvent := .done,
          dotfiles := ⟨none, true, none, none, none, none, ["line"], none, some [],
            fun _ => true, fun _ => none, fun _ => none, true, true, true⟩,
          backup := ⟨none, none, fun _ => false, fun _ => none, fun _ => none⟩ }
        initialModel).1.installProgress = initialModel.installProgress + 1 ∧
    (∀ s t, TuiEffect.copyDir s t ∈
        (installDotfiles
          { homeDir := "/home/u", configRepo := "repo", configDirs := [".config"],
            helperName := "yay", aurEvent := .done,
            dotfiles := ⟨none, true, none, none, none, none, ["line"], none, some [],
              fun _ => true, fun _ => none, fun _ => none, true, true, true⟩,
            backup := ⟨none, none, fun _ => false, fun _ => none, fun _ => none⟩ }
          initialModel).1.effects →
      TuiEffect.copyDir s t ∈ initialModel.effects) ∧
    handleInstallProgressFn
        (installDotfiles
          { homeDir := "/home/u", configRepo := "repo", configDirs := [".config"],
            helperName := "yay", aurEvent := .done,
            dotfiles := ⟨none, true, none, none, none, none, ["line"], none, some [],
              fun _ => true, fun _ => none, fun _ => none, true, true, true⟩,
            backup := ⟨none, none, fun _ => false, fun _ => none, fun _ => none⟩ }
          initialModel).1
        (installDotfiles
          { homeDir := "/home/u", configRepo := "repo", configDirs := [".config"],
            helperName := "yay", aurEvent := .done,
            dotfiles := ⟨none, true, none, none, none, none, ["line"], none, some [],
              fun _ => true, fun _ => none, fun _ => none, true, true, true⟩,
            backup := ⟨none, none, fun _ => false, fun _ => none, fun _ => none⟩ }
          initialModel).2 =
      ({ (installDotfiles
            { homeDir := "/home/u", configRepo := "repo", configDirs := [".config"],
              helperName := "yay", aurEvent := .done,
              dotfiles := ⟨none, true, none, none, none, none, ["line"], none, some [],
                fun _ => true, fun _ => none, fun _ => none, true, true, true⟩,
              backup := ⟨none, none, fun _ => false, fun _ => none, fun _ => none⟩ }
            initialModel).1 with
          errorMessage := "repository cloned but appears to be empty" }, .noCmd) :=
  empty_clone_fatal_no_copies
    { homeDir := "/home/u", configRepo := "repo", configDirs := [".config"],
      helperName := "yay", aurEvent := .done,
      dotfiles := ⟨none, true, none, none, none, none, ["line"], none, some [],
        fun _ => true, fun _ => none, fun _ => none, true, true, true⟩,
      backup := ⟨none, none, fun _ => false, fun _ => none, fun _ => none⟩ }
    initialModel rfl rfl rfl rfl rfl rfl rfl

/-- Witness for the amended C5. -/
theorem conflict_classification_case_sensitive_precedence_witness :
    detectsConflictLine "foo conflicts with bar" = true ∧
    addMessageType "WARNING: CONFLICT with bar" = .error ∧
    (Helper.installPackages "yay" "" ["pkgA"]
        ⟨none, none, none, none, ⟨1, [1]⟩,
          ["error: foo conflicts with bar"], .exited (some "exit status 1")⟩
        ⟨true, none, none⟩).2.2.1 =
      some ("package conflict detected: " ++ "error: foo conflicts with bar") :=
  conflict_classification_case_sensitive_precedence
    "foo conflicts with bar" "WARNING: CONFLICT with bar" "yay" ""
    "exit status 1" "error: foo conflicts with bar" ["pkgA"]
    ⟨none, none, none, none, ⟨1, [1]⟩,
      ["error: foo conflicts with bar"], .exited (some "exit status 1")⟩
    ⟨true, none, none⟩
    (by decide) (by decide) (by decide) rfl rfl rfl rfl rfl (by decide)

/-! ### Helper lemmas for C6 -/

/-- The package loop never touches the skipped-package record: no branch
of `installNextPackage` writes `skippedPackages` (only the Skip
resolution in `handleConflictInput` does), so in particular an
auto-resolved conflict records nothing as skipped. -/
theorem installLoop_skipped (outcome : String → List String × Option String) :
    ∀ (q : List String) (m : Model),
      (installLoop outcome q m).1.skippedPackages = m.skippedPackages := by
  intro q
  induction q with
  | nil => intro m; rfl
  | cons pkg rest ih =>
      intro m
      rcases hr : outcome pkg with ⟨msgs, err⟩
      cases err with
      | none =>
          simp only [installLoop, hr]
          by_cases hrest : rest.isEmpty
          · rw [if_pos hrest]
            simp
          · rw [if_neg hrest]
            rw [ih]
            simp
      | some e =>
          simp only [installLoop, hr]
          by_cases hdet : detectsConflictLine e
          · rw [if_pos hdet]
            split
            · rw [ih]
              simp
            · simp
          · rw [if_neg hdet]
            simp

/-- Under `replaceAllPackages`, a conflicting head package is dropped:
it was already removed from the queue when its attempt began, and the
loop continues as the package loop on the remaining queue from a state
that only records the attempt's output lines, the conflicting package
name, and the `Automatically replacing...` note — the package is never
issued to the package manager again and no replacement install is
performed. -/
theorem installLoop_conflict_drop
    (outcome : String → List String × Option String)
    (pkg : String) (rest msgs : List String) (e : String) (m : Model)
    (hA : m.replaceAllPackages = true)
    (houtc : outcome pkg = (msgs, some e))
    (hdet : detectsConflictLine e = true) :
    installLoop outcome (pkg :: rest) m =
      installLoop outcome rest
        (Model.addTyped
          { Model.recordPkgMessages
              { m with
                packagesToInstall := rest
                installProgress := m.installProgress + 1 } msgs with
            conflictPackage := pkg }
          MessageType.info
          ("Automatically replacing conflicting package: " ++ pkg)
          "conflict-resolution") := by
  simp [installLoop, houtc, hdet, hA]

/-- Under `replaceAllPackages = true`, the package loop never produces a
conflict message, never raises the conflict flag, and never clears the
session-wide flag. -/
theorem installLoop_replaceAll (outcome : String → List String × Option String) :
    ∀ (q : List String) (m : Model), m.replaceAllPackages = true →
      (installLoop outcome q m).1.replaceAllPackages = true ∧
      (installLoop outcome q m).1.hasConflict = m.hasConflict ∧
      (installLoop outcome q m).2.hasConflict = false := by
  intro q
  induction q with
  | nil =>
      intro m h
      exact ⟨h, rfl, rfl⟩
  | cons pkg rest ih =>
      intro m h
      rcases hr : outcome pkg with ⟨msgs, err⟩
      cases err with
      | none =>
          simp only [installLoop, hr]
          by_cases hrest : rest.isEmpty
          · rw [if_pos hrest]
            exact ⟨by simp [h], by simp, rfl⟩
          · rw [if_neg hrest]
            refine ⟨(ih _ (by simp [h])).1, ?_, (ih _ (by simp [h])).2.2⟩
            rw [(ih _ (by simp [h])).2.1]
            simp
      | some e =>
          simp only [installLoop, hr]
          by_cases hdet : detectsConflictLine e
          · rw [if_pos hdet]
            split
            next hra =>
              refine ⟨(ih _ (by simp [h])).1, ?_, (ih _ (by simp [h])).2.2⟩
              rw [(ih _ (by simp [h])).2.1]
              simp
            next hra =>
              exact absurd (by simp [h]) hra
          · rw [if_neg hdet]
            exact ⟨by simp [h], by simp, rfl⟩

/-- `copyDirsLoop` only ever reports errors through a message whose
conflict flag is inherited from its argument. -/
theorem copyDirsLoop_msg_no_conflict (env : SessionEnv) :
    ∀ (dirs : List String) (m : Model) (curMsg : InstallProgressMsg),
      curMsg.hasConflict = false →
      ∀ (m' : Model) (msg' : InstallProgressMsg),
        copyDirsLoop env dirs m curMsg = (m', some msg') →
        msg'.hasConflict = false := by
  intro dirs
  induction dirs with
  | nil =>
      intro m curMsg hc m' msg' heq
      simp [copyDirsLoop] at heq
  | cons d rest ih =>
      intro m curMsg hc m' msg' heq
      simp only [copyDirsLoop] at heq
      rcases hmk : env.dotfiles.mkdirErr d with _ | e
      · rcases hcp : env.dotfiles.copyErr d with _ | e
        · rw [hmk, hcp] at heq
          exact ih _ _ rfl _ _ heq
        · rw [hmk, hcp] at heq
          simp only [Prod.mk.injEq, Option.some.injEq] at heq
          rw [← heq.2]
          exact hc
      · rw [hmk] at heq
        simp only [Prod.mk.injEq, Option.some.injEq] at heq
        rw [← heq.2]
        exact hc

set_option maxHeartbeats 1600000 in
/-- `installDotfiles` never produces a conflict message. -/
theorem installDotfiles_msg_no_conflict (env : SessionEnv) (m : Model) :
    (installDotfiles env m).2.hasConflict = false := by
  simp only [installDotfiles]
  repeat' split
  all_goals try rfl
  all_goals
    rename_i heq
    exact copyDirsLoop_msg_no_conflict env _ _ _ rfl _ _ heq

/-- `backupLoop` only reports errors through a message whose conflict
flag is inherited from its argument. -/
theorem backupLoop_msg_no_conflict (env : SessionEnv) (backupDir : String) :
    ∀ (dirs : List String) (m : Model) (curMsg : InstallProgressMsg),
      curMsg.hasConflict = false →
      ∀ (m' : Model) (msg' : InstallProgressMsg),
        backupLoop env backupDir dirs m curMsg = (m', some msg') →
        msg'.hasConflict = false := by
  intro dirs
  induction dirs with
  | nil =>
      intro m curMsg hc m' msg' heq
      simp [backupLoop] at heq
  | cons d rest ih =>
      intro m curMsg hc m' msg' heq
      simp only [backupLoop] at heq
      by_cases hex : env.backup.dirExists d
      · rw [if_pos hex] at heq
        rcases hmk : env.backup.mkdirParentErr d with _ | e
        · rcases hcp : env.backup.copyErr d with _ | e
          · rw [hmk, hcp] at heq
            exact ih _ _ hc _ _ heq
          · rw [hmk, hcp] at heq
            simp only [Prod.mk.injEq, Option.some.injEq] at heq
            rw [← heq.2]
            exact hc
        · rw [hmk] at heq
          simp only [Prod.mk.injEq, Option.some.injEq] at heq
          rw [← heq.2]
          exact hc
      · rw [if_neg hex] at heq
        exact ih _ _ hc _ _ heq

set_option maxHeartbeats 1600000 in
/-- `backupConfigDirs` never produces a conflict message. -/
theorem backupConfigDirs_msg_no_conflict (env : SessionEnv) (m : Model) :
    (backupConfigDirs env m).2.hasConflict = false := by
  simp only [backupConfigDirs]
  repeat' split
  all_goals try rfl
  all_goals try exact installDotfiles_msg_no_conflict env _
  all_goals
    rename_i heq
    refine backupLoop_msg_no_conflict env _ _ _ _ ?_ _ _ heq
    rfl

/-- `installAURHelper` never produces a conflict message. -/
theorem installAURHelper_msg_no_conflict (env : SessionEnv) (m : Model) :
    (installAURHelper env m).2.hasConflict = false := by
  unfold installAURHelper
  split <;> rfl

/-- Unfolding lemma: the driver stops at any non-conflict message. -/
theorem driveSession_stop (outcome : String → List String × Option String)
    (env : SessionEnv) (choices : List Nat) (m : Model) (msg : InstallProgressMsg)
    (h : msg.hasConflict = false) :
    driveSession outcome env choices (m, msg) = (m, msg) := by
  cases choices <;> simp [driveSession, h]

/-- Unfolding lemma: one resolution round of the driver on a conflict
message. -/
theorem driveSession_conflict_step (outcome : String → List String × Option String)
    (env : SessionEnv) (c : Nat) (cs : List Nat) (m : Model)
    (msg : InstallProgressMsg) (h : msg.hasConflict = true) :
    driveSession outcome env (c :: cs) (m, msg) =
      (match handleConflictEnter outcome env
          { (handleInstallProgressFn m msg).1 with conflictOption := c } with
       | (m3, some msg3) => driveSession outcome env cs (m3, msg3)
       | (m3, none) => (m3, msg)) := by
  simp [driveSession, h]

/-- The Replace-All run equals the interactive run in which the user
answers Replace (option 1) at every conflict: same final queue,
progress, phase, skipped set, page, conflict flag, and same final
message. -/
theorem drive_replaceAll_eq (outcome : String → List String × Option String)
    (env : SessionEnv) :
    ∀ (q : List String) (choices : List Nat) (mA mB : Model),
      mA.replaceAllPackages = true → mB.replaceAllPackages = false →
      mA.hasConflict = false → mB.hasConflict = false →
      (∀ c ∈ choices, c = 1) → q.length ≤ choices.length →
      mA.packagesToInstall = mB.packagesToInstall →
      mA.installProgress = mB.installProgress →
      mA.totalSteps = mB.totalSteps →
      mA.installPhase = mB.installPhase →
      mA.skippedPackages = mB.skippedPackages →
      mA.page = mB.page →
      mB.installPhase ≠ "dotfiles_confirmation" →
      mB.installPhase ≠ "backup_confirmation" →
      mB.aurHelperInstalled = true →
      coreAgree (driveSession outcome env choices (installLoop outcome q mB)).1
        (installLoop outcome q mA).1 ∧
      (driveSession outcome env choices (installLoop outcome q mB)).2 =
        (installLoop outcome q mA).2 := by
  intro q
  induction q with
  | nil =>
      intro choices mA mB hA hB hcA hcB hch hlen hqeq hprog htot hph hskip hpage
        hph1 hph2 hhelp
      simp only [installLoop]
      rw [driveSession_stop _ _ _ _ _ rfl]
      exact ⟨⟨hqeq.symm, hprog.symm, htot.symm, rfl, hskip.symm, hpage.symm,
        by rw [hcA, hcB]⟩, rfl⟩
  | cons pkg rest ih =>
      intro choices mA mB hA hB hcA hcB hch hlen hqeq hprog htot hph hskip hpage
        hph1 hph2 hhelp
      rcases hr : outcome pkg with ⟨msgs, err⟩
      cases err with
      | none =>
          simp only [installLoop, hr]
          by_cases hrest : rest.isEmpty
          · rw [if_pos hrest, if_pos hrest]
            rw [driveSession_stop _ _ _ _ _ rfl]
            refine ⟨⟨by simp, by simp [hprog], by simp [htot], by simp,
              by simp [hskip], by simp [hpage], by simp [hcA, hcB]⟩, rfl⟩
          · rw [if_neg hrest, if_neg hrest]
            refine ih choices _ _ (by simp [hA]) (by simp [hB]) (by simp [hcA])
              (by simp [hcB]) hch ?_ (by simp) (by simp [hprog]) (by simp [htot])
              (by simp [hph]) (by simp [hskip]) (by simp [hpage])
              (by simp; exact hph1) (by simp; exact hph2) (by simp [hhelp])
            simp only [List.length_cons] at hlen
            omega
      | some e =>
          simp only [installLoop, hr]
          by_cases hdet : detectsConflictLine e
          · rw [if_pos hdet, if_pos hdet]
            rcases choices with _ | ⟨c, cs⟩
            · simp only [List.length_cons, List.length_nil] at hlen
              omega
            have hc1 : c = 1 := hch c (by simp)
            subst hc1
            have hchcs : ∀ c' ∈ cs, c' = 1 := fun c' hc' => hch c' (by simp [hc'])
            have hlen2 : rest.length ≤ cs.length := by
              simp only [List.length_cons] at hlen
              omega
            simp only [Model.recordPkgMessages_replaceAllPackages, hA, hB,
              eq_self_iff_true, if_true, Bool.false_eq_true, if_false]
            rw [driveSession_conflict_step _ _ _ _ _ _ rfl]
            by_cases hrest : rest.isEmpty
            · have hrest' : rest = [] := by
                cases rest with
                | nil => rfl
                | cons a t => simp at hrest
              subst hrest'
              simp [handleConflictEnter, handleInstallProgressFn, applyConflictChoice,
                continueInstallation, installNextPackage, installLoop, NewConflictMsg,
                hph1, hph2, hhelp]
              rw [driveSession_stop _ _ _ _ _ rfl]
              exact ⟨⟨by simp [hqeq], by simp [hprog], by simp [htot], by simp,
                by simp [hskip], by simp [hpage], by simp [hcA, hcB]⟩, rfl⟩
            · simp [handleConflictEnter, handleInstallProgressFn, applyConflictChoice,
                continueInstallation, installNextPackage, NewConflictMsg,
                hph1, hph2, hhelp, hrest]
              exact ih cs _ _ (by simp [hA]) (by simp [hB]) (by simp [hcA]) (by simp)
                hchcs hlen2 (by simp) (by simp [hprog]) (by simp [htot])
                (by simp [hph]) (by simp [hskip]) (by simp [hpage])
                (by simpa using hph1) (by simpa using hph2) (by simp [hhelp])
          · rw [if_neg hdet, if_neg hdet]
            rw [driveSession_stop _ _ _ _ _ rfl]
            refine ⟨⟨by simp, by simp [hprog], by simp [htot], by simp [hph],
              by simp [hskip], by simp [hpage], by simp [hcA, hcB]⟩, ?_⟩
            simp [hprog, htot]

/-- **C6 counterexample.** The original claim says that with Replace-All
set a subsequent conflict is resolved with the package manager
performing the replacement.  Concretely: queue `[p1, p2]`, Replace-All
already chosen, every issued install logs one `issued <pkg>` line,
`p1` succeeds and `p2` reports a conflict.  At the end of the run the
legacy message log holds exactly one `issued p2` line — `p2` was issued
to the package manager exactly once, namely the attempt that conflicted
and was aborted — followed only by the `Automatically replacing...`
note; the queue is empty, `p2` is not recorded as skipped, and the loop
moved straight on to the dotfiles phase.  No replacement install of
`p2` ever happens: the conflicting package is popped before the
conflict is detected and the loop recurses on the remaining queue,
silently dropping it. -/
theorem replaceAll_resolution_performs_no_replacement :
    (installLoop cx6Outcome ["p1", "p2"] cx6Model).1.systemMessages =
      ["issued p1", "issued p2",
        "Automatically replacing conflicting package: p2"] ∧
    (installLoop cx6Outcome ["p1", "p2"] cx6Model).1.packagesToInstall = [] ∧
    (installLoop cx6Outcome ["p1", "p2"] cx6Model).1.skippedPackages = [] ∧
    (installLoop cx6Outcome ["p1", "p2"] cx6Model).1.hasConflict = false ∧
    (installLoop cx6Outcome ["p1", "p2"] cx6Model).1.installPhase =
      "dotfiles_confirmation" ∧
    (installLoop cx6Outcome ["p1", "p2"] cx6Model).1.conflictPackage = "p2" := by
  decide

/-- **C6 (amended).** Once Replace-All has been chosen
(`replaceAllPackages` is set), every subsequent conflict in the session
resolves automatically exactly as the Replace choice does: the package
loop run under the flag never raises the conflict flag and never emits
a conflict message (so the state machine never suspends into
conflict-pending again — and no later phase of the session emits a
conflict message either), and its outcome agrees, on queue, progress,
total steps, phase, skipped set, page and conflict flag, and on the
final message, with the interactive run in which the user answers
Replace at every conflict.  But no replacement is performed:
auto-resolution records nothing as skipped, and a conflicting package —
already popped from the queue when its attempt began — is simply
dropped, the run continuing as the package loop on the remaining queue
from a state that only records the aborted attempt's output, the
conflicting package name and the `Automatically replacing...` note; the
package is never re-issued to the package manager. -/
theorem replaceAll_auto_resolves_and_never_suspends
    (outcome : String → List String × Option String) (env : SessionEnv)
    (q : List String) (choices : List Nat) (mA mB : Model)
    (hA : mA.replaceAllPackages = true) (hB : mB.replaceAllPackages = false)
    (hcA : mA.hasConflict = false) (hcB : mB.hasConflict = false)
    (hch : ∀ c ∈ choices, c = 1) (hlen : q.length ≤ choices.length)
    (hqeq : mA.packagesToInstall = mB.packagesToInstall)
    (hprog : mA.installProgress = mB.installProgress)
    (htot : mA.totalSteps = mB.totalSteps)
    (hph : mA.installPhase = mB.installPhase)
    (hskip : mA.skippedPackages = mB.skippedPackages)
    (hpage : mA.page = mB.page)
    (hph1 : mB.installPhase ≠ "dotfiles_confirmation")
    (hph2 : mB.installPhase ≠ "backup_confirmation")
    (hhelp : mB.aurHelperInstalled = true) :
    (installLoop outcome q mA).1.replaceAllPackages = true ∧
    (installLoop outcome q mA).1.hasConflict = false ∧
    (installLoop outcome q mA).2.hasConflict = false ∧
    (installDotfiles env mA).2.hasConflict = false ∧
    (backupConfigDirs env mA).2.hasConflict = false ∧
    (installAURHelper env mA).2.hasConflict = false ∧
    coreAgree (driveSession outcome env choices (installLoop outcome q mB)).1
      (installLoop outcome q mA).1 ∧
    (driveSession outcome env choices (installLoop outcome q mB)).2 =
      (installLoop outcome q mA).2 ∧
    (installLoop outcome q mA).1.skippedPackages = mA.skippedPackages ∧
    (∀ (pkg : String) (rest msgs : List String) (e : String),
      q = pkg :: rest → outcome pkg = (msgs, some e) →
      detectsConflictLine e = true →
      installLoop outcome q mA =
        installLoop outcome rest
          (Model.addTyped
            { Model.recordPkgMessages
                { mA with
                  packagesToInstall := rest
                  installProgress := mA.installProgress + 1 } msgs with
              conflictPackage := pkg }
            MessageType.info
            ("Automatically replacing conflicting package: " ++ pkg)
            "conflict-resolution")) := by
  obtain ⟨h1, h2, h3⟩ := installLoop_replaceAll outcome q mA hA
  obtain ⟨h4, h5⟩ := drive_replaceAll_eq outcome env q choices mA mB hA hB hcA hcB
    hch hlen hqeq hprog htot hph hskip hpage hph1 hph2 hhelp
  exact ⟨h1, by rw [h2, hcA], h3, installDotfiles_msg_no_conflict env mA,
    backupConfigDirs_msg_no_conflict env mA, installAURHelper_msg_no_conflict env mA,
    h4, h5, installLoop_skipped outcome q mA,
    fun pkg rest msgs e hq houtc hdet => by
      subst hq
      exact installLoop_conflict_drop outcome pkg rest msgs e mA hA houtc hdet⟩

/-- Witness for C6: two packages, both conflicting; the drop equation is
instantiated at the head package `p1`. -/
theorem replaceAll_auto_resolves_and_never_suspends_witness :
    (installLoop c6Outcome ["p1", "p2"] c6ModelA).1.replaceAllPackages = true ∧
    (installLoop c6Outcome ["p1", "p2"] c6ModelA).1.hasConflict = false ∧
    (installLoop c6Outcome ["p1", "p2"] c6ModelA).2.hasConflict = false ∧
    (installDotfiles c6Env c6ModelA).2.hasConflict = false ∧
    (backupConfigDirs c6Env c6ModelA).2.hasConflict = false ∧
    (installAURHelper c6Env c6ModelA).2.hasConflict = false ∧
    coreAgree
      (driveSession c6Outcome c6Env [1, 1]
        (installLoop c6Outcome ["p1", "p2"] c6ModelB)).1
      (installLoop c6Outcome ["p1", "p2"] c6ModelA).1 ∧
    (driveSession c6Outcome c6Env [1, 1]
        (installLoop c6Outcome ["p1", "p2"] c6ModelB)).2 =
      (installLoop c6Outcome ["p1", "p2"] c6ModelA).2 ∧
    (installLoop c6Outcome ["p1", "p2"] c6ModelA).1.skippedPackages =
      c6ModelA.skippedPackages ∧
    installLoop c6Outcome ["p1", "p2"] c6ModelA =
      installLoop c6Outcome ["p2"]
        (Model.addTyped
          { Model.recordPkgMessages
              { c6ModelA with
                packagesToInstall := ["p2"]
                installProgress := c6ModelA.installProgress + 1 } [] with
            conflictPackage := "p1" }
          MessageType.info
          ("Automatically replacing conflicting package: " ++ "p1")
          "conflict-resolution") := by
  obtain ⟨h1, h2, h3, h4, h5, h6, h7, h8, h9, h10⟩ :=
    replaceAll_auto_resolves_and_never_suspends c6Outcome c6Env ["p1", "p2"] [1, 1]
      c6ModelA c6ModelB rfl rfl rfl rfl (by decide) (by decide) rfl rfl rfl rfl rfl rfl
      (by decide) (by decide) rfl
  exact ⟨h1, h2, h3, h4, h5, h6, h7, h8, h9,
    h10 "p1" ["p2"] [] "package conflict detected: w" rfl rfl (by decide)⟩

end Lunaris
